import Mathlib

/-!
Shallow embedding, in Lean 4, of the request-to-vehicle matching core of the
eleride platform (services/platform-api): the candidate scorer and lane-anchor
resolver (app/domains/matchmaking/service.py), the accept / inbox-state /
pickup-verification operations of the operator portal
(app/domains/operator_portal/service.py), the commitment policy engine
(app/domains/commitment_policy/service.py and models.py), and supply-request
creation (app/domains/supply/service.py).

Modelling conventions:
* Python floats are modelled as exact rationals (ℚ); timestamps are rational
  numbers of seconds since the epoch, so `timedelta(days=d)` is `d * 86400`
  and `.total_seconds() / 60` is division by 60.
* The database session is a value of type `DB`; each service function is a
  pure state transformer returning the post-transaction state.  A raised
  `HTTPException` is modelled as an `Except.error` together with the
  pre-state, which encodes the transactional rollback semantics (none of the
  modelled raise sites occur after a partial write in the source).
* `haversine_km` and `lane_anchor` are transcendental (sin/cos/atan2), so the
  operational layer is parameterized by an abstract `Geo` oracle providing
  the distance function and the anchor resolver; every theorem about the
  operational layer holds for EVERY oracle, in particular for the true
  haversine geometry, which is embedded separately over ℝ below
  (`haversineR`, `lane_anchorR`) and used for the lane-anchor claims.
* SQLAlchemy rows are list elements; `one_or_none()` on a primary-key filter
  is `List.find?`, an `UPDATE` of a fetched row is a `List.map` guarded by
  the row key, and `order_by(...).first()` is a fold selecting the extremal
  element for the translated ordering (first-listed row wins ties, matching
  an unspecified SQL tie order).
* `matched_reasons` is stored in the source as a JSON string and parsed back
  with `json.loads`; for a list of plain strings this round-trips, so the
  field is modelled directly as `Option (List String)`.
-/

/-! ## Enumerations (operator_portal/models.py, supply/models.py, commitment_policy/models.py) -/

/-- VehicleStatus enum from operator_portal/models.py. -/
inductive VehicleStatus where
  | ACTIVE
  | IN_MAINTENANCE
  | INACTIVE
deriving DecidableEq

/-- String value of a VehicleStatus, as in Python `v.status.value`. -/
def VehicleStatus.value : VehicleStatus → String
  | .ACTIVE => "ACTIVE"
  | .IN_MAINTENANCE => "IN_MAINTENANCE"
  | .INACTIVE => "INACTIVE"

/-- OperatorInboxState enum from operator_portal/models.py. -/
inductive InboxState where
  | NEW
  | CONTACTED
  | ONBOARDED
  | REJECTED
deriving DecidableEq

/-- SupplyRequestStatus enum from supply/models.py. -/
inductive SupplyRequestStatus where
  | CREATED
  | MATCHED
  | REJECTED
deriving DecidableEq

/-- CommitmentLockMode enum from commitment_policy/models.py. -/
inductive CommitmentLockMode where
  | RESTRICT_TO_LANE
  | HIDE_ALL_DEMAND
deriving DecidableEq

/-- CommitmentStatus enum from commitment_policy/models.py. -/
inductive CommitmentStatus where
  | ACTIVE
  | CANCELLED
  | COMPLETED
deriving DecidableEq

/-! ## Row types -/

/-- Vehicle row (operator_portal/models.py); the snapshot fields consumed by
scoring and assignment. -/
structure Vehicle where
  id : String
  operator_id : String
  registration_number : String
  status : VehicleStatus
  last_lat : Option ℚ
  last_lon : Option ℚ
  battery_pct : Option ℚ
  last_telemetry_at : Option ℚ
  created_at : ℚ
deriving DecidableEq

/-- SupplyRequest row (supply/models.py). -/
structure SupplyRequest where
  id : String
  rider_id : String
  lane_id : String
  time_window : Option String
  requirements : Option String
  operator_id : Option String
  pickup_location : Option String
  matched_vehicle_id : Option String
  matched_score : Option ℚ
  matched_reasons : Option (List String)
  pickup_verified_at : Option ℚ
  pickup_verified_by_user_id : Option String
  status : SupplyRequestStatus
  created_at : ℚ
deriving DecidableEq

/-- OperatorRequestInbox row (operator_portal/models.py), keyed by
(operator_id, supply_request_id). -/
structure OperatorRequestInbox where
  operator_id : String
  supply_request_id : String
  state : InboxState
  note : Option String
  updated_at : ℚ
deriving DecidableEq

/-- Commitment row (commitment_policy/models.py). -/
structure Commitment where
  id : String
  rider_id : String
  operator_id : String
  lane_id : String
  lock_mode : CommitmentLockMode
  status : CommitmentStatus
  starts_at : ℚ
  ends_at : ℚ
  created_at : ℚ
  cancelled_at : Option ℚ
  cancel_reason : Option String
deriving DecidableEq

/-- Operator row (operator_portal/models.py): only the slug (used as the
tenant key) and display name matter to the modelled operations. -/
structure Operator where
  slug : String
  name : String
deriving DecidableEq

/-- The shared transactional store.  `gen` is a fresh-name source standing in
for uuid4 primary-key generation. -/
structure DB where
  requests : List SupplyRequest
  inbox : List OperatorRequestInbox
  vehicles : List Vehicle
  commitments : List Commitment
  operators : List Operator
  gen : Nat
deriving DecidableEq

/-- HTTPException raised by a service function: HTTP status code, the
machine-readable `code` field of a dict detail (none for a plain-string
detail), and the human message. -/
structure ApiErr where
  status : Nat
  code : Option String
  message : String
deriving DecidableEq

instance {ε α : Type} [DecidableEq ε] [DecidableEq α] : DecidableEq (Except ε α)
  | .ok a, .ok b =>
      if h : a = b then .isTrue (by rw [h])
      else .isFalse (by intro he; cases he; exact h rfl)
  | .ok _, .error _ => .isFalse (by intro he; cases he)
  | .error _, .ok _ => .isFalse (by intro he; cases he)
  | .error a, .error b =>
      if h : a = b then .isTrue (by rw [h])
      else .isFalse (by intro he; cases he; exact h rfl)

/-! ## Decimal formatting helpers

The source interpolates numbers into reason strings with Python fixed-point
formats (`:.0f`, `:.1f`); these are modelled by decimal formatting with
round-half-to-even, the rounding Python applies to the decimal scaling.  No
claim depends on the rendered digits. -/

/-- Round a rational to the nearest integer, ties to even. -/
def roundHalfEven (q : ℚ) : ℤ :=
  let f : ℤ := ⌊q⌋
  let r : ℚ := q - (f : ℚ)
  if r < 1/2 then f
  else if r > 1/2 then f + 1
  else if f % 2 = 0 then f else f + 1

/-- Render a rational with `d` digits after the decimal point (Python
`f"{x:.df}"`). -/
def fmtFixed (d : Nat) (q : ℚ) : String :=
  let scaled : ℤ := roundHalfEven (q * ((10 : ℚ) ^ d))
  let sign := if scaled < 0 then "-" else ""
  let m := scaled.natAbs
  if d = 0 then sign ++ toString m
  else
    let base := 10 ^ d
    let ip := m / base
    let fp := m % base
    let fpStr := toString fp
    let pad := String.mk (List.replicate (d - fpStr.length) '0')
    sign ++ toString ip ++ "." ++ pad ++ fpStr

/-! ## Python string primitives

Modelled over the character list of a `String` (the core byte-position
based `String.toUpper`, `String.trim`, `String.take` and `String.splitOn`
are not kernel-reducible). -/

/-- Python `s.upper()` (ASCII, which covers every value the source uppercases). -/
def pyUpper (s : String) : String := String.mk (s.data.map Char.toUpper)

/-- Python `s.strip()`. -/
def pyStrip (s : String) : String :=
  String.mk (((s.data.dropWhile Char.isWhitespace).reverse.dropWhile
    Char.isWhitespace).reverse)

/-- Python `s[:n]`. -/
def pyTake (s : String) (n : Nat) : String := String.mk (s.data.take n)

/-- Python `s.startswith(p)`. -/
def pyStarts (s p : String) : Bool := p.data.isPrefixOf s.data

/-- Splitting a character list at a separator character. -/
def splitCharsOn (sep : Char) : List Char → List (List Char)
  | [] => [[]]
  | c :: rest =>
      let r := splitCharsOn sep rest
      if c = sep then [] :: r
      else
        match r with
        | g :: gs => (c :: g) :: gs
        | [] => [[c]]

/-- Python `s.split(sep)` for a one-character separator. -/
def pySplit (s : String) (sep : Char) : List String :=
  (splitCharsOn sep s.data).map String.mk

/-! ## Candidate scorer (matchmaking/service.py, `score_vehicle`)

`haversine_km` is transcendental; the scorer takes the distance function as
the explicit argument `hav`, so every theorem below quantifies over it and in
particular applies to the true haversine distance (`haversineR` below is the
faithful ℝ embedding used for the lane-anchor geometry claims). -/

/-- Translation of `score_vehicle`: returns
(score_0_100, distance_km, reasons, eligible). -/
def score_vehicle (hav : ℚ → ℚ → ℚ → ℚ → ℚ) (now : ℚ) (v : Vehicle)
    (lane_lat lane_lon max_km min_batt max_age_min : ℚ) :
    ℚ × Option ℚ × List String × Bool :=
  let elig0 : Bool := true
  let (elig1, r1) :=
    if v.status ≠ VehicleStatus.ACTIVE then
      (false, ["blocked:vehicle_status=" ++ v.status.value])
    else (elig0, ([] : List String))
  let dist : Option ℚ :=
    match v.last_lat, v.last_lon with
    | some la, some lo => some (hav la lo lane_lat lane_lon)
    | _, _ => none
  let (elig2, r2) :=
    match dist with
    | some d =>
        if d > max_km then
          (false, r1 ++ ["blocked:distance>" ++ fmtFixed 1 max_km ++ "km (≈"
              ++ fmtFixed 1 d ++ "km)"])
        else (elig1, r1)
    | none => (elig1, r1 ++ ["penalty:no_location"])
  let (elig3, r3) :=
    match v.battery_pct with
    | some b =>
        if b < min_batt then
          (false, r2 ++ ["blocked:battery<" ++ fmtFixed 0 min_batt ++ "% ("
              ++ fmtFixed 0 b ++ "%)"])
        else (elig2, r2)
    | none => (elig2, r2 ++ ["penalty:no_battery"])
  let (elig4, r4) :=
    match v.last_telemetry_at with
    | some t =>
        let age_min := (now - t) / 60
        if age_min > max_age_min then
          (false, r3 ++ ["blocked:telemetry_stale>" ++ fmtFixed 0 max_age_min
              ++ "m (≈" ++ fmtFixed 0 age_min ++ "m)"])
        else (elig3, r3)
    | none => (false, r3 ++ ["blocked:no_telemetry"])
  let score0 : ℚ := 100
  let (score1, r5) :=
    match dist with
    | none => (score0 - 35, r4)
    | some d =>
        (score0 - min 55 ((d / max 0.5 max_km) * 55),
         r4 ++ ["distance≈" ++ fmtFixed 1 d ++ "km"])
  let (score2, r6) :=
    match v.battery_pct with
    | none => (score1 - 8, r5)
    | some b =>
        let bonus := max 0 (min 18 ((b - min_batt) / max 1 (100 - min_batt) * 18))
        (score1 + bonus,
         r5 ++ ["battery≈" ++ fmtFixed 0 b ++ "% (bonus +" ++ fmtFixed 1 bonus ++ ")"])
  let (score3, r7) :=
    match v.last_telemetry_at with
    | none => (score2 - 18, r6)
    | some t =>
        let age_min := (now - t) / 60
        let penalty := min 18 (max 0 (age_min / max 1 max_age_min * 18))
        (score2 - penalty,
         r6 ++ ["telemetry_age≈" ++ fmtFixed 0 age_min ++ "m (penalty -"
             ++ fmtFixed 1 penalty ++ ")"])
  let score := max 0 (min 100 score3)
  (score, dist, r7, elig4)

/-! ## Geometry oracle

`lane_anchor` and `haversine_km` use transcendental functions; the
operational layer receives them through this oracle so that its theorems
hold for every geometry, in particular the true one. `anchor` takes the
lane id and the optional rider coordinates and returns (lat, lon). -/

structure Geo where
  hav : ℚ → ℚ → ℚ → ℚ → ℚ
  anchor : String → Option ℚ → Option ℚ → ℚ × ℚ

/-! ## Row lookups and the blocked-vehicle set (operator_portal/service.py) -/

/-- Lookup of a SupplyRequest by id and operator, as in the
`SupplyRequest.id == ... , SupplyRequest.operator_id == ...` filters of
`accept_inbox_request_auto_assign_vehicle` and `verify_pickup_qr`. -/
def findRequest (db : DB) (op rid : String) : Option SupplyRequest :=
  db.requests.find? fun r => decide (r.id = rid) && decide (r.operator_id = some op)

/-- Lookup of the OperatorRequestInbox row keyed by (operator_id,
supply_request_id). -/
def findInboxRow (db : DB) (op rid : String) : Option OperatorRequestInbox :=
  db.inbox.find? fun s =>
    decide (s.operator_id = op) && decide (s.supply_request_id = rid)

/-- Lookup of a Vehicle by primary key, as in `db.get(Vehicle, vid)`. -/
def getVehicle (db : DB) (vid : String) : Option Vehicle :=
  db.vehicles.find? fun v => decide (v.id = vid)

/-- The blocked-vehicle derivation of
`accept_inbox_request_auto_assign_vehicle` (lines 85-99): matched vehicle
ids of requests joined to an ONBOARDED inbox row of this operator.  The
Python set comprehension also drops a falsy (empty-string) id via
`if r[0]`. -/
def blockedVehicleIds (db : DB) (op : String) : List String :=
  db.requests.filterMap fun r =>
    match r.matched_vehicle_id with
    | some vid =>
        if db.inbox.any (fun s => decide (s.operator_id = op)
              && decide (s.supply_request_id = r.id)
              && decide (s.state = InboxState.ONBOARDED))
            && decide (vid ≠ "") then
          some vid
        else none
    | none => none

/-! ## Vehicle selection order

`order_by(battery_pct.desc().nullslast(), last_telemetry_at.desc().nullslast(),
created_at.asc())` followed by `.first()`. -/

/-- Comparison of one `desc().nullslast()` key. -/
def cmpDescNullsLast (a b : Option ℚ) : Ordering :=
  match a, b with
  | some x, some y => if y < x then .lt else if x < y then .gt else .eq
  | some _, none => .lt
  | none, some _ => .gt
  | none, none => .eq

/-- Comparison of an ascending key. -/
def cmpAsc (a b : ℚ) : Ordering :=
  if a < b then .lt else if b < a then .gt else .eq

/-- The full vehicle ordering used by the assignment queries. -/
def vehicleOrd (a b : Vehicle) : Ordering :=
  ((cmpDescNullsLast a.battery_pct b.battery_pct).then
    (cmpDescNullsLast a.last_telemetry_at b.last_telemetry_at)).then
    (cmpAsc a.created_at b.created_at)

/-- `query.first()` for the vehicle ordering: the extremal element of the
filtered row list (first-listed wins ties). -/
def firstBest (vs : List Vehicle) : Option Vehicle :=
  vs.foldl
    (fun acc v =>
      match acc with
      | none => some v
      | some w => if vehicleOrd v w = .lt then some v else some w)
    none

/-! ## Commitment creation (commitment_policy/service.py, `create_commitment`) -/

/-- Translation of `create_commitment`: inserts an ACTIVE commitment with
`ends_at = now + timedelta(days=min_days)`; the uuid primary key is drawn
from the `gen` counter. -/
def create_commitment (db : DB) (now : ℚ) (rider_id operator_id lane_id : String)
    (min_days : ℚ) (lock_mode : CommitmentLockMode) : DB × Commitment :=
  let c : Commitment :=
    { id := "commitment-" ++ toString db.gen
      rider_id := rider_id
      operator_id := operator_id
      lane_id := lane_id
      lock_mode := lock_mode
      status := CommitmentStatus.ACTIVE
      starts_at := now
      ends_at := now + min_days * 86400
      created_at := now
      cancelled_at := none
      cancel_reason := none }
  ({ db with commitments := db.commitments ++ [c], gen := db.gen + 1 }, c)

/-! ## Accept (operator_portal/service.py, `accept_inbox_request_auto_assign_vehicle`) -/

/-- Response payload of a successful accept. -/
structure AcceptResult where
  state : InboxState
  matched_vehicle_id : String
  matched_vehicle_registration_number : String
  matched_score : Option ℚ
  matched_reasons : Option (List String)
deriving DecidableEq

/-- HTTP 404 "Request not found". -/
def errRequestNotFound : ApiErr := ⟨404, none, "Request not found"⟩

/-- HTTP 409 NO_AVAILABLE_VEHICLE. -/
def errNoAvailableVehicle : ApiErr :=
  ⟨409, some "NO_AVAILABLE_VEHICLE", "No ACTIVE vehicles available to assign."⟩

/-- The city bounding box around the lane anchor of a request (lines
102-108, 118-123): the vehicle's last position must be known and inside
roughly ±0.55° latitude, ±0.70° longitude of the anchor. -/
def acceptInBox (geo : Geo) (req : SupplyRequest) (v : Vehicle) : Bool :=
  let lane := geo.anchor req.lane_id none none
  match v.last_lat, v.last_lon with
  | some la, some lo =>
      decide (lane.1 - 0.55 ≤ la) && decide (la ≤ lane.1 + 0.55)
        && decide (lane.2 - 0.70 ≤ lo) && decide (lo ≤ lane.2 + 0.70)
  | _, _ => false

/-- The preferred-recommendation lookup (lines 110-128): the previously
matched vehicle, when non-empty and unblocked, fetched only if it is this
operator's, ACTIVE and inside the bounding box. -/
def acceptPreferred (geo : Geo) (db : DB) (operator_id : String)
    (req : SupplyRequest) : Option Vehicle :=
  match req.matched_vehicle_id with
  | some mv =>
      if decide (mv ≠ "") && !(blockedVehicleIds db operator_id).contains mv then
        db.vehicles.find? fun v =>
          decide (v.id = mv) && decide (v.operator_id = operator_id)
            && decide (v.status = VehicleStatus.ACTIVE) && acceptInBox geo req v
      else none
  | none => none

/-- The in-box best-vehicle query (lines 130-152): best unblocked ACTIVE
vehicle of the operator inside the bounding box. -/
def acceptBoxQuery (geo : Geo) (db : DB) (operator_id : String)
    (req : SupplyRequest) : Option Vehicle :=
  firstBest (db.vehicles.filter fun v =>
    decide (v.operator_id = operator_id)
      && decide (v.status = VehicleStatus.ACTIVE)
      && !(blockedVehicleIds db operator_id).contains v.id
      && acceptInBox geo req v)

/-- The wide fallback query (lines 154-170): best unblocked ACTIVE vehicle
of the operator without the bounding box. -/
def acceptWideQuery (db : DB) (operator_id : String) : Option Vehicle :=
  firstBest (db.vehicles.filter fun v =>
    decide (v.operator_id = operator_id)
      && decide (v.status = VehicleStatus.ACTIVE)
      && !(blockedVehicleIds db operator_id).contains v.id)

/-- The vehicle-selection chain of the assignment path (lines 101-170):
prefer the prior recommendation, then the in-box query, then the wide
fallback. -/
def acceptChosen (geo : Geo) (db : DB) (operator_id : String)
    (req : SupplyRequest) : Option Vehicle :=
  match acceptPreferred geo db operator_id req with
  | some v => some v
  | none =>
      match acceptBoxQuery geo db operator_id req with
      | some v => some v
      | none => acceptWideQuery db operator_id

/-- The write phase of the assignment path (lines 178-233): persist the
audit fields on the request, upsert the inbox row to ONBOARDED, and create
the commitment on a fresh transition into ONBOARDED. -/
def acceptFinish (geo : Geo) (db : DB) (operator_id supply_request_id : String)
    (note : Option String) (now : ℚ) (req : SupplyRequest)
    (st? : Option OperatorRequestInbox) (chosen : Vehicle) :
    DB × Except ApiErr AcceptResult :=
  let prev_state : Option InboxState := st?.map (·.state)
  let lane := geo.anchor req.lane_id none none
  let sc := score_vehicle geo.hav now chosen lane.1 lane.2 12 20 240
  let score := sc.1
  let reasons := sc.2.2.1
  let req' := { req with
    matched_vehicle_id := some chosen.id
    matched_score := some score
    matched_reasons := some reasons }
  let auto_note :=
    note.getD ("Accepted. Auto-assigned vehicle " ++ chosen.registration_number ++ ".")
  let db1 : DB := { db with
    requests := db.requests.map fun r => if r.id = req.id then req' else r
    inbox :=
      match st? with
      | some _ =>
          db.inbox.map fun s =>
            if s.operator_id = operator_id ∧ s.supply_request_id = supply_request_id then
              { s with state := InboxState.ONBOARDED, note := some auto_note,
                       updated_at := now }
            else s
      | none =>
          db.inbox ++ [{ operator_id := operator_id
                         supply_request_id := supply_request_id
                         state := InboxState.ONBOARDED
                         note := some auto_note
                         updated_at := now }] }
  let db2 : DB :=
    if prev_state ≠ some InboxState.ONBOARDED then
      (create_commitment db1 now req.rider_id operator_id req.lane_id 5
        CommitmentLockMode.HIDE_ALL_DEMAND).1
    else db1
  (db2, Except.ok
    { state := InboxState.ONBOARDED
      matched_vehicle_id := chosen.id
      matched_vehicle_registration_number := chosen.registration_number
      matched_score := some score
      matched_reasons := some reasons })

/-- The assignment path of accept, entered when the inbox state is not
already ONBOARDED (lines 85-233). -/
def acceptAssign (geo : Geo) (db : DB) (operator_id supply_request_id : String)
    (note : Option String) (now : ℚ) (req : SupplyRequest)
    (st? : Option OperatorRequestInbox) : DB × Except ApiErr AcceptResult :=
  match acceptChosen geo db operator_id req with
  | none => (db, Except.error errNoAvailableVehicle)
  | some chosen =>
      acceptFinish geo db operator_id supply_request_id note now req st? chosen

/-- Translation of `accept_inbox_request_auto_assign_vehicle` (lines
37-233): lock the request, short-circuit when already ONBOARDED, otherwise
auto-assign a vehicle, flip the inbox row to ONBOARDED and create the
5-day HIDE_ALL_DEMAND commitment on a fresh transition. -/
def accept (geo : Geo) (db : DB) (operator_id supply_request_id : String)
    (note : Option String) (now : ℚ) : DB × Except ApiErr AcceptResult :=
  match findRequest db operator_id supply_request_id with
  | none => (db, Except.error errRequestNotFound)
  | some req =>
      match findInboxRow db operator_id supply_request_id with
      | some st =>
          if st.state = InboxState.ONBOARDED then
            (db, Except.ok
              { state := InboxState.ONBOARDED
                matched_vehicle_id := req.matched_vehicle_id.getD ""
                matched_vehicle_registration_number :=
                  (match req.matched_vehicle_id with
                   | some vid => match getVehicle db vid with
                     | some v => v.registration_number
                     | none => ""
                   | none => "")
                matched_score := req.matched_score
                matched_reasons := req.matched_reasons })
          else
            acceptAssign geo db operator_id supply_request_id note now req (some st)
      | none => acceptAssign geo db operator_id supply_request_id note now req none

/-! ## Manual inbox transition (operator_portal/service.py, `upsert_inbox_state`) -/

/-- Translation of `upsert_inbox_state` (lines 628-693): update or insert
the (operator, request) inbox row, and create the 5-day HIDE_ALL_DEMAND
commitment when the state newly becomes ONBOARDED. -/
def upsert_inbox_state (db : DB) (operator_id supply_request_id : String)
    (state : InboxState) (note : Option String) (now : ℚ) :
    DB × OperatorRequestInbox :=
  match findInboxRow db operator_id supply_request_id with
  | some existing =>
      let prev := existing.state
      let row := { existing with state := state, note := note, updated_at := now }
      let db1 : DB := { db with
        inbox := db.inbox.map fun s =>
          if s.operator_id = operator_id ∧ s.supply_request_id = supply_request_id then
            row
          else s }
      let db2 : DB :=
        if prev ≠ state ∧ state = InboxState.ONBOARDED then
          match findRequest db1 operator_id supply_request_id with
          | some req =>
              (create_commitment db1 now req.rider_id (req.operator_id.getD "")
                req.lane_id 5 CommitmentLockMode.HIDE_ALL_DEMAND).1
          | none => db1
        else db1
      (db2, row)
  | none =>
      let row : OperatorRequestInbox :=
        { operator_id := operator_id
          supply_request_id := supply_request_id
          state := state
          note := note
          updated_at := now }
      let db1 : DB := { db with inbox := db.inbox ++ [row] }
      let db2 : DB :=
        if state = InboxState.ONBOARDED then
          match findRequest db1 operator_id supply_request_id with
          | some req =>
              (create_commitment db1 now req.rider_id (req.operator_id.getD "")
                req.lane_id 5 CommitmentLockMode.HIDE_ALL_DEMAND).1
          | none => db1
        else db1
      (db2, row)

/-! ## SHA-256, HMAC and base64url (Python hashlib / hmac / base64)

Bytes are naturals < 256, 32-bit words are naturals < 2^32 with explicit
reduction mod 2^32.  Used by `_stable_unit_interval`
(matchmaking/service.py) and by the pickup code utilities (utils/qr.py). -/

/-- Reduction to a 32-bit word. -/
def w32 (n : Nat) : Nat := n % 4294967296

/-- 32-bit right rotation. -/
def rotr32 (x n : Nat) : Nat := w32 ((x >>> n) ||| (x <<< (32 - n)))

/-- SHA-256 Ch. -/
def shaCh (x y z : Nat) : Nat := (x &&& y) ^^^ ((x ^^^ 4294967295) &&& z)

/-- SHA-256 Maj. -/
def shaMaj (x y z : Nat) : Nat := (x &&& y) ^^^ (x &&& z) ^^^ (y &&& z)

/-- SHA-256 Σ0. -/
def shaS0 (x : Nat) : Nat := rotr32 x 2 ^^^ rotr32 x 13 ^^^ rotr32 x 22

/-- SHA-256 Σ1. -/
def shaS1 (x : Nat) : Nat := rotr32 x 6 ^^^ rotr32 x 11 ^^^ rotr32 x 25

/-- SHA-256 σ0. -/
def shas0 (x : Nat) : Nat := rotr32 x 7 ^^^ rotr32 x 18 ^^^ (x >>> 3)

/-- SHA-256 σ1. -/
def shas1 (x : Nat) : Nat := rotr32 x 17 ^^^ rotr32 x 19 ^^^ (x >>> 10)

/-- SHA-256 round constants. -/
def shaK : List Nat :=
  [1116352408, 1899447441, 3049323471, 3921009573, 961987163, 1508970993,
   2453635748, 2870763221, 3624381080, 310598401, 607225278, 1426881987,
   1925078388, 2162078206, 2614888103, 3248222580, 3835390401, 4022224774,
   264347078, 604807628, 770255983, 1249150122, 1555081692, 1996064986,
   2554220882, 2821834349, 2952996808, 3210313671, 3336571891, 3584528711,
   113926993, 338241895, 666307205, 773529912, 1294757372, 1396182291,
   1695183700, 1986661051, 2177026350, 2456956037, 2730485921, 2820302411,
   3259730800, 3345764771, 3516065817, 3600352804, 4094571909, 275423344,
   430227734, 506948616, 659060556, 883997877, 958139571, 1322822218,
   1537002063, 1747873779, 1955562222, 2024104815, 2227730452, 2361852424,
   2428436474, 2756734187, 3204031479, 3329325298]

/-- SHA-256 padding of a byte string. -/
def sha256pad (msg : List Nat) : List Nat :=
  let len := msg.length
  let bitLen := len * 8
  let k := (119 - len % 64) % 64
  msg ++ [0x80] ++ List.replicate k 0
    ++ (List.range 8).map fun i => (bitLen >>> ((7 - i) * 8)) % 256

/-- Group bytes into big-endian 32-bit words. -/
def bytesToWords : List Nat → List Nat
  | b0 :: b1 :: b2 :: b3 :: rest =>
      (((b0 * 256 + b1) * 256 + b2) * 256 + b3) :: bytesToWords rest
  | _ => []

/-- Split a word list into 16-word blocks (a padded message is always a
whole number of blocks, so the trailing catch-all is never reached for the
inputs produced by `sha256pad`). -/
def blocks16 : List Nat → List (List Nat)
  | a0 :: a1 :: a2 :: a3 :: a4 :: a5 :: a6 :: a7
      :: a8 :: a9 :: a10 :: a11 :: a12 :: a13 :: a14 :: a15 :: rest =>
      [a0, a1, a2, a3, a4, a5, a6, a7, a8, a9, a10, a11, a12, a13, a14, a15]
        :: blocks16 rest
  | [] => []
  | ws => [ws]

/-- Extend a 16-word block to the 64-word message schedule. -/
def shaSchedule (m : List Nat) : List Nat :=
  (List.range 48).foldl
    (fun w _ =>
      let n := w.length
      w ++ [w32 (shas1 (w.getD (n - 2) 0) + w.getD (n - 7) 0
          + shas0 (w.getD (n - 15) 0) + w.getD (n - 16) 0)])
    m

/-- One SHA-256 compression step over a 16-word block. -/
def shaCompress (h : List Nat) (m : List Nat) : List Nat :=
  let w := shaSchedule m
  let st0 := (h.getD 0 0, h.getD 1 0, h.getD 2 0, h.getD 3 0,
              h.getD 4 0, h.getD 5 0, h.getD 6 0, h.getD 7 0)
  let stN := (List.range 64).foldl
    (fun st i =>
      let t1 := w32 (st.2.2.2.2.2.2.2 + shaS1 st.2.2.2.2.1 +
        shaCh st.2.2.2.2.1 st.2.2.2.2.2.1 st.2.2.2.2.2.2.1 +
        shaK.getD i 0 + w.getD i 0)
      let t2 := w32 (shaS0 st.1 + shaMaj st.1 st.2.1 st.2.2.1)
      (w32 (t1 + t2), st.1, st.2.1, st.2.2.1, w32 (st.2.2.2.1 + t1),
       st.2.2.2.2.1, st.2.2.2.2.2.1, st.2.2.2.2.2.2.1))
    st0
  List.zipWith (fun x y => w32 (x + y)) h
    [stN.1, stN.2.1, stN.2.2.1, stN.2.2.2.1, stN.2.2.2.2.1,
     stN.2.2.2.2.2.1, stN.2.2.2.2.2.2.1, stN.2.2.2.2.2.2.2]

/-- SHA-256 digest (32 bytes) of a byte string. -/
def sha256bytes (msg : List Nat) : List Nat :=
  let H0 : List Nat :=
    [1779033703, 3144134277, 1013904242, 2773480762,
     1359893119, 2600822924, 528734635, 1541459225]
  let final := (blocks16 (bytesToWords (sha256pad msg))).foldl shaCompress H0
  (final.map fun wd =>
    [(wd >>> 24) % 256, (wd >>> 16) % 256, (wd >>> 8) % 256, wd % 256]).flatten

/-- Lowercase hex digit. -/
def hexDigit (n : Nat) : Char :=
  if n < 10 then Char.ofNat (48 + n) else Char.ofNat (87 + n)

/-- Lowercase hex rendering of a byte string (Python `.hexdigest()`). -/
def bytesHex (bs : List Nat) : String :=
  String.mk (bs.map fun b => [hexDigit (b / 16), hexDigit (b % 16)]).flatten

/-- UTF-8 encoding of one code point. -/
def utf8EncodeNat (c : Nat) : List Nat :=
  if c < 0x80 then [c]
  else if c < 0x800 then [0xc0 + c / 64, 0x80 + c % 64]
  else if c < 0x10000 then [0xe0 + c / 4096, 0x80 + (c / 64) % 64, 0x80 + c % 64]
  else [0xf0 + c / 262144, 0x80 + (c / 4096) % 64, 0x80 + (c / 64) % 64,
        0x80 + c % 64]

/-- Python `s.encode("utf-8")`. -/
def strBytes (s : String) : List Nat :=
  (s.data.map fun c => utf8EncodeNat c.toNat).flatten

/-- Value of a lowercase hex digit. -/
def hexVal (c : Char) : Nat :=
  if 97 ≤ c.toNat then c.toNat - 87 else c.toNat - 48

/-- Python `int(h, 16)` for a lowercase hex string given as chars. -/
def parseHex (cs : List Char) : Nat :=
  cs.foldl (fun n c => n * 16 + hexVal c) 0

/-- Translation of `_stable_unit_interval` (matchmaking/service.py lines
21-24): hash the seed, take the first 8 hex chars as a 32-bit int, and
map it into [0, 1) with 7 decimal digits of resolution. -/
def stable_unit_interval (seed : String) : ℚ :=
  let h := bytesHex (sha256bytes (strBytes seed))
  let n := parseHex (h.data.take 8)
  ((n % 10000000 : Nat) : ℚ) / 10000000

/-- HMAC-SHA256 (Python `hmac.new(key, msg, hashlib.sha256)`). -/
def hmacSha256 (key msg : List Nat) : List Nat :=
  let k0 := if 64 < key.length then sha256bytes key else key
  let k := k0 ++ List.replicate (64 - k0.length) 0
  let ipad := k.map fun b => b ^^^ 0x36
  let opad := k.map fun b => b ^^^ 0x5c
  sha256bytes (opad ++ sha256bytes (ipad ++ msg))

/-- URL-safe base64 character. -/
def b64urlChar (n : Nat) : Char :=
  if n < 26 then Char.ofNat (65 + n)
  else if n < 52 then Char.ofNat (97 + (n - 26))
  else if n < 62 then Char.ofNat (48 + (n - 52))
  else if n = 62 then '-'
  else '_'

/-- URL-safe base64 without padding, as produced by `_b64url` in utils/qr.py
(`base64.urlsafe_b64encode(b).decode().rstrip("=")`). -/
def b64urlNoPad : List Nat → List Char
  | b0 :: b1 :: b2 :: rest =>
      b64urlChar (b0 / 4) :: b64urlChar (b0 % 4 * 16 + b1 / 16)
        :: b64urlChar (b1 % 16 * 4 + b2 / 64) :: b64urlChar (b2 % 64)
        :: b64urlNoPad rest
  | [b0, b1] =>
      [b64urlChar (b0 / 4), b64urlChar (b0 % 4 * 16 + b1 / 16),
       b64urlChar (b1 % 16 * 4)]
  | [b0] => [b64urlChar (b0 / 4), b64urlChar (b0 % 4 * 16)]
  | [] => []

/-- Translation of `pickup_qr_code` (utils/qr.py): the short human-enterable
code, a truncated uppercased base64url rendering of the first 16 bytes of
the HMAC signature of "request|operator|vehicle".  `secret` is the runtime
configuration value `settings.jwt_secret`. -/
def pickup_qr_code (secret : String) (supply_request_id : String)
    (operator_id : Option String) (vehicle_reg : Option String) : String :=
  let op := pyStrip (operator_id.getD "")
  let vr := pyUpper (pyStrip (vehicle_reg.getD ""))
  let msg := strBytes (supply_request_id ++ "|" ++ op ++ "|" ++ vr)
  let sig := String.mk (b64urlNoPad ((hmacSha256 (strBytes secret) msg).take 16))
  pyUpper (pyTake sig 6)

/-! ## Pickup verification (operator_portal/service.py, `verify_pickup_qr`)

The side trip generating a rider contract on first success touches only
Rider rows, which are outside this model; no claim depends on it. -/

/-- HTTP 409 NOT_APPROVED. -/
def errNotApproved : ApiErr := ⟨409, some "NOT_APPROVED", "Request is not approved yet."⟩

/-- HTTP 400 INVALID_PICKUP_CODE. -/
def errInvalidPickupCode : ApiErr :=
  ⟨400, some "INVALID_PICKUP_CODE", "Pickup code does not match."⟩

/-- Translation of `verify_pickup_qr` (lines 236-305): requires the inbox
row to be ONBOARDED, short-circuits when already verified, otherwise
compares the normalized entered code with the recomputed expected code and
records the verification on match.  Returns the pickup_verified_at
timestamp on success. -/
def verify_pickup_qr (secret : String) (db : DB)
    (operator_id supply_request_id pickup_code verified_by_user_id : String)
    (now : ℚ) : DB × Except ApiErr ℚ :=
  let code_in := pyUpper (pyStrip pickup_code)
  match findRequest db operator_id supply_request_id with
  | none => (db, Except.error errRequestNotFound)
  | some req =>
      match findInboxRow db operator_id supply_request_id with
      | none => (db, Except.error errNotApproved)
      | some st =>
          if st.state ≠ InboxState.ONBOARDED then
            (db, Except.error errNotApproved)
          else
            match req.pickup_verified_at with
            | some t => (db, Except.ok t)
            | none =>
                let v : Option Vehicle :=
                  match req.matched_vehicle_id with
                  | some vid => getVehicle db vid
                  | none => none
                let vehicle_reg := v.map (·.registration_number)
                let expected := pickup_qr_code secret req.id req.operator_id vehicle_reg
                if code_in ≠ expected then
                  (db, Except.error errInvalidPickupCode)
                else
                  let req' := { req with
                    pickup_verified_at := some now
                    pickup_verified_by_user_id := some verified_by_user_id }
                  let db1 : DB := { db with
                    requests := db.requests.map fun r => if r.id = req.id then req' else r
                    inbox := db.inbox.map fun s =>
                      if s.operator_id = operator_id ∧ s.supply_request_id = supply_request_id then
                        { s with note := some "Pickup verified (QR).", updated_at := now }
                      else s }
                  (db1, Except.ok now)

/-! ## Commitment policy engine (commitment_policy/service.py) -/

/-- The PolicyDecision payload of `check_access`. -/
structure PolicyDecision where
  allowed : Bool
  reason : Option String
  unlock_at : Option ℚ
  allowed_lane_id : Option String
deriving DecidableEq

/-- Translation of `Commitment.is_active_at` (commitment_policy/models.py
lines 41-44): ACTIVE status and `starts_at <= now < ends_at`. -/
def Commitment.is_active_at (c : Commitment) (now : ℚ) : Bool :=
  decide (c.status = CommitmentStatus.ACTIVE) && decide (c.starts_at ≤ now)
    && decide (now < c.ends_at)

/-- The accumulator step of the `order_by(created_at.desc()).first()` query:
keep the later-created of two commitments (first seen wins ties). -/
def newerOf (acc : Option Commitment) (c : Commitment) : Option Commitment :=
  match acc with
  | none => some c
  | some b => if b.created_at < c.created_at then some c else some b

/-- The query of `get_active_commitment`: rider's ACTIVE-status commitments
ordered by `created_at` descending, then `.first()` (the latest created;
first-listed row wins ties). -/
def newestActiveCommitment (db : DB) (rider_id : String) : Option Commitment :=
  (db.commitments.filter fun c =>
      decide (c.rider_id = rider_id) && decide (c.status = CommitmentStatus.ACTIVE)).foldl
    newerOf none

/-- Translation of `get_active_commitment` (lines 36-49): take the most
recently created ACTIVE commitment and return it only if its own window
contains `now`. -/
def get_active_commitment (db : DB) (rider_id : String) (now : ℚ) : Option Commitment :=
  match newestActiveCommitment db rider_id with
  | some c => if c.is_active_at now then some c else none
  | none => none

/-- Translation of `check_access` (lines 52-73). -/
def check_access (db : DB) (rider_id : String) (action : String) (now : ℚ) :
    PolicyDecision :=
  match get_active_commitment db rider_id now with
  | none => ⟨true, none, none, none⟩
  | some active =>
      if action = "VIEW_DEMAND" then
        if active.lock_mode = CommitmentLockMode.HIDE_ALL_DEMAND then
          ⟨false, some "COMMITMENT_LOCKED", some active.ends_at, none⟩
        else
          ⟨true, some "COMMITMENT_RESTRICTED_TO_LANE", some active.ends_at,
           some active.lane_id⟩
      else ⟨true, none, none, none⟩

/-! ## Supply-match operator profile (supply_match/service.py) -/

/-- OperatorRecommendation from supply_match/service.py. -/
structure OperatorRecommendation where
  operator_id : String
  name : String
  pickup_location : String
  pickup_lat : ℚ
  pickup_lon : ℚ
  required_docs : List String
deriving DecidableEq

/-- Python `s.lower()` (ASCII). -/
def pyLower (s : String) : String := String.mk (s.data.map Char.toLower)

/-- Python `str.capitalize()`: first character uppercased, the rest lowered. -/
def pyCapitalize (w : String) : String :=
  match w.data with
  | [] => ""
  | c :: cs => String.mk (c.toUpper :: cs.map Char.toLower)

/-- Join a list of strings with a separator (Python `sep.join(...)`). -/
def joinSep (sep : String) : List String → String
  | [] => ""
  | [s] => s
  | s :: rest => s ++ sep ++ joinSep sep rest

/-- Translation of `_city_from_lane_id`: second `:`-separated component of
the lane id, uppercased, defaulting to PUNE, with Bengaluru aliases
normalized. -/
def city_from_lane_id (lane_id : Option String) : String :=
  match lane_id with
  | none => "PUNE"
  | some l =>
      if l = "" then "PUNE"
      else
        let parts := (((pySplit l ':').map pyStrip).filter fun p => p ≠ "").map pyUpper
        let city := if 2 ≤ parts.length then parts.getD 1 "PUNE" else "PUNE"
        if city = "BENGALURU" ∨ city = "BLR" then "BANGALORE" else city

/-- Translation of `pickup_hub_for_operator` (Pune hubs). -/
def pickup_hub_for_operator (operator_id : String) : String × ℚ × ℚ :=
  let op := pyLower (pyStrip (if operator_id = "" then "eleride-fleet" else operator_id))
  if op = "eleride-fleet" ∨ op = "fleet" ∨ op = "eleride" then
    ("Eleride Fleet Hub • Pune (demo)", 18.5626, 73.9168)
  else if op = "maint" ∨ op = "maintenance-tech" ∨ op = "maintenance" then
    ("Eleride Maintenance Yard • Pune (demo)", 18.5960, 73.7460)
  else if op = "financing" ∨ op = "financing-portal" ∨ op = "leasing" then
    ("Eleride Finance Desk • Pune (demo)", 18.5362, 73.8940)
  else ("Eleride Fleet Hub • Pune (demo)", 18.5626, 73.9168)

/-- Translation of `pickup_hub_for_operator_and_city`. -/
def pickup_hub_for_operator_and_city (operator_id city : String) : String × ℚ × ℚ :=
  let op := pyLower (pyStrip (if operator_id = "" then "eleride-fleet" else operator_id))
  let c0 := pyUpper (pyStrip city)
  let c := if c0 = "BENGALURU" ∨ c0 = "BLR" then "BANGALORE" else c0
  if c = "BANGALORE" then
    if op = "eleride-fleet" ∨ op = "fleet" ∨ op = "eleride" then
      ("Eleride Fleet Hub • Bangalore (demo)", 12.9569, 77.7011)
    else if op = "maint" ∨ op = "maintenance-tech" ∨ op = "maintenance" then
      ("Eleride Maintenance Yard • Bangalore (demo)", 12.9352, 77.6245)
    else if op = "financing" ∨ op = "financing-portal" ∨ op = "leasing" then
      ("Eleride Finance Desk • Bangalore (demo)", 12.9716, 77.5946)
    else ("Eleride Fleet Hub • Bangalore (demo)", 12.9569, 77.7011)
  else pickup_hub_for_operator operator_id

/-- Translation of `pick_operator_for_lane`. -/
def pick_operator_for_lane (lane_id : String) (operator_id : Option String) :
    OperatorRecommendation :=
  let op :=
    match operator_id with
    | some o => if o = "" then "eleride-fleet" else o
    | none => "eleride-fleet"
  let words := (pySplit (String.mk (op.data.map fun c => if c = '_' then '-' else c)) '-').filter
    fun w => w ≠ ""
  let name0 := joinSep " " (words.map pyCapitalize)
  let name := if name0 = "" then op else name0
  let city := city_from_lane_id (some lane_id)
  let hub := pickup_hub_for_operator_and_city op city
  { operator_id := op
    name := name
    pickup_location := hub.1
    pickup_lat := hub.2.1
    pickup_lon := hub.2.2
    required_docs := ["DL", "Aadhaar/PAN"] }

/-! ## Ranked recommendation (matchmaking/service.py, `recommend`) -/

/-- A ranked candidate dict as produced by `recommend`. -/
structure Candidate where
  vehicle_id : String
  registration_number : String
  operator_id : String
  status : String
  last_telemetry_at : Option ℚ
  battery_pct : Option ℚ
  distance_km : Option ℚ
  score : ℚ
  reasons : List String
deriving DecidableEq

/-- The `recommend` response: resolved lane anchor plus the ranked head and
tail of the candidate list. -/
structure RecommendResult where
  lane_lat : ℚ
  lane_lon : ℚ
  recommended : Option Candidate
  alternatives : List Candidate
deriving DecidableEq

/-- Stable insertion of `a` into a list sorted by the strict ordering
`before` (an element keeps its place against ties). -/
def insertOrd (before : α → α → Bool) (a : α) : List α → List α
  | [] => [a]
  | b :: bs => if before b a then b :: insertOrd before a bs else a :: b :: bs

/-- Stable sort by a strict ordering, modelling Python's stable `sort` and
SQL `ORDER BY` (ties keep list order). -/
def sortOrd (before : α → α → Bool) (l : List α) : List α :=
  l.foldr (insertOrd before) []

/-- Python `round(q, 2)`. -/
def round2 (q : ℚ) : ℚ := (roundHalfEven (q * 100) : ℚ) / 100

/-- Translation of `_operator_load` (matchmaking/service.py lines 68-85):
(NEW, CONTACTED) inbox-row counts over the operator's requests. -/
def operator_load (db : DB) (op : String) : Nat × Nat :=
  let req_ids := (db.requests.filter fun r => decide (r.operator_id = some op)).map (·.id)
  if req_ids.isEmpty then (0, 0)
  else
    let rows := db.inbox.filter fun s =>
      decide (s.operator_id = op) && req_ids.contains s.supply_request_id
    ((rows.filter fun s => decide (s.state = InboxState.NEW)).length,
     (rows.filter fun s => decide (s.state = InboxState.CONTACTED)).length)

/-- Translation of `recommend` (matchmaking/service.py lines 176-257):
score the bounded vehicle scan, drop ineligible vehicles, apply the
operator-load penalty, rank by (score desc, distance asc) and return the
top of the list. -/
def recommend (geo : Geo) (db : DB) (now : ℚ) (lane_id : String)
    (rider_lat rider_lon : Option ℚ)
    (max_km min_battery_pct max_telemetry_age_min : ℚ) (limit : Nat) :
    RecommendResult :=
  let lane := geo.anchor lane_id rider_lat rider_lon
  let op_slugs := db.operators.map (·.slug)
  if op_slugs.isEmpty then ⟨lane.1, lane.2, none, []⟩
  else
    let vs := (sortOrd (fun a b => decide (b.created_at < a.created_at))
      (db.vehicles.filter fun v => op_slugs.contains v.operator_id)).take 1200
    let candidates := vs.filterMap fun v =>
      let sc := score_vehicle geo.hav now v lane.1 lane.2 max_km min_battery_pct
        max_telemetry_age_min
      if sc.2.2.2 then
        let load := operator_load db v.operator_id
        let load_penalty := min 12 ((load.1 : ℚ) * 1.6 + (load.2 : ℚ) * 0.6)
        let score2 := max 0 (sc.1 - load_penalty)
        some { vehicle_id := v.id
               registration_number := v.registration_number
               operator_id := v.operator_id
               status := v.status.value
               last_telemetry_at := v.last_telemetry_at
               battery_pct := v.battery_pct
               distance_km := sc.2.1
               score := round2 score2
               reasons := sc.2.2.1 ++ ["op_load:new=" ++ toString load.1
                 ++ ",contacted=" ++ toString load.2
                 ++ " (penalty -" ++ fmtFixed 1 load_penalty ++ ")"] }
      else none
    let ranked := sortOrd
      (fun a b => decide (b.score < a.score)
        || (decide (a.score = b.score)
            && decide (a.distance_km.getD 1000000000 < b.distance_km.getD 1000000000)))
      candidates
    let top := ranked.take (max 1 limit)
    ⟨lane.1, lane.2, top.head?, top.drop 1⟩

/-! ## Supply-request creation (supply/service.py, `create_supply_request`) -/

/-- HTTP 409 ACTIVE_REQUEST_EXISTS. -/
def errActiveRequestExists : ApiErr :=
  ⟨409, some "ACTIVE_REQUEST_EXISTS",
   "An onboarding request is already in progress for this phone number."⟩

/-- Inbox rows outer-joined to a request in the duplicate-request query of
`create_supply_request` (the join has no operator filter). -/
def inboxRowsForRequest (db : DB) (rid : String) : List OperatorRequestInbox :=
  db.inbox.filter fun s => decide (s.supply_request_id = rid)

/-- The blocking condition of the duplicate-request query: pickup not
verified, status not REJECTED, and either no inbox row at all (the NULL
branch of the outer join) or some inbox row whose state is not REJECTED. -/
def codeActiveRequest (db : DB) (r : SupplyRequest) : Bool :=
  decide (r.pickup_verified_at = none)
    && decide (r.status ≠ SupplyRequestStatus.REJECTED)
    && (let rows := inboxRowsForRequest db r.id
        rows.isEmpty || rows.any fun s => decide (s.state ≠ InboxState.REJECTED))

/-- The operator-selection stage of `create_supply_request` (lines 58-77):
when no operator id is given (or it is falsy), run `recommend` and persist
the audit fields of its top candidate on the new request; the chosen
operator is the top candidate's, if any. -/
def createStage (geo : Geo) (db1 : DB) (now : ℚ) (lane_id : String)
    (rider_lat rider_lon : Option ℚ) (operator_id : Option String)
    (req0 : SupplyRequest) : SupplyRequest × Option String :=
  if (operator_id.getD "") = "" then
    let recOut := recommend geo db1 now lane_id rider_lat rider_lon 8 20 120 6
    match recOut.recommended with
    | some top =>
        ({ req0 with
            matched_vehicle_id := some top.vehicle_id
            matched_score := some top.score
            matched_reasons := some top.reasons },
         some top.operator_id)
    | none => ({ req0 with matched_reasons := some [] }, none)
  else (req0, operator_id)

/-- Translation of `create_supply_request` (supply/service.py lines 14-91):
reject when an active request exists for the rider; otherwise insert the
request, pick the operator (through `recommend` when none is given,
persisting the audit fields), and mark it MATCHED. -/
def create_supply_request (geo : Geo) (db : DB) (rider_id lane_id : String)
    (time_window requirements : Option String) (rider_lat rider_lon : Option ℚ)
    (operator_id : Option String) (now : ℚ) : DB × Except ApiErr SupplyRequest :=
  if db.requests.any (fun r => decide (r.rider_id = rider_id) && codeActiveRequest db r) then
    (db, Except.error errActiveRequestExists)
  else
    let reqId := "request-" ++ toString db.gen
    let req0 : SupplyRequest :=
      { id := reqId
        rider_id := rider_id
        lane_id := lane_id
        time_window := time_window
        requirements := requirements
        operator_id := none
        pickup_location := none
        matched_vehicle_id := none
        matched_score := none
        matched_reasons := none
        pickup_verified_at := none
        pickup_verified_by_user_id := none
        status := SupplyRequestStatus.CREATED
        created_at := now }
    let db1 : DB := { db with requests := db.requests ++ [req0], gen := db.gen + 1 }
    let stage := createStage geo db1 now lane_id rider_lat rider_lon operator_id req0
    let operator := pick_operator_for_lane lane_id stage.2
    let reqF : SupplyRequest := { stage.1 with
      operator_id := some operator.operator_id
      pickup_location := some operator.pickup_location
      status := SupplyRequestStatus.MATCHED }
    let db2 : DB := { db1 with
      requests := db1.requests.map fun r => if r.id = reqId then reqF else r }
    (db2, Except.ok reqF)

/-! ## Real geometry (matchmaking/service.py lines 21-65)

The faithful embedding over ℝ of `math.radians`, `math.atan2`,
`haversine_km`, `_offset_point_km` and `lane_anchor`, used to settle the
lane-anchor geometry claims.  Python float arithmetic is modelled as exact
real arithmetic. -/

/-- Python `math.radians`. -/
noncomputable def radiansR (d : ℝ) : ℝ := d * Real.pi / 180

/-- Python `math.atan2 y x`. -/
noncomputable def atan2R (y x : ℝ) : ℝ :=
  if 0 < x then Real.arctan (y / x)
  else if x < 0 then
    if 0 ≤ y then Real.arctan (y / x) + Real.pi
    else Real.arctan (y / x) - Real.pi
  else if 0 < y then Real.pi / 2
  else if y < 0 then -(Real.pi / 2)
  else 0

/-- Translation of `haversine_km` (lines 34-43). -/
noncomputable def haversineR (lat1 lon1 lat2 lon2 : ℝ) : ℝ :=
  let r : ℝ := 6371
  let dlat := radiansR (lat2 - lat1)
  let dlon := radiansR (lon2 - lon1)
  let a := Real.sin (dlat / 2) ^ 2
    + Real.cos (radiansR lat1) * Real.cos (radiansR lat2) * Real.sin (dlon / 2) ^ 2
  let c := 2 * atan2R (Real.sqrt a) (Real.sqrt (1 - a))
  r * c

/-- CITY_CENTROIDS from demand_discovery/service.py (exact decimal values). -/
def CITY_CENTROIDS (city : String) : Option (ℚ × ℚ) :=
  if city = "BENGALURU" then some (12.9716, 77.5946)
  else if city = "BANGALORE" then some (12.9716, 77.5946)
  else if city = "PUNE" then some (18.5204, 73.8567)
  else if city = "DELHI" then some (28.6139, 77.2090)
  else if city = "HYDERABAD" then some (17.3850, 78.4867)
  else none

/-- Translation of `_offset_point_km` (lines 27-31). -/
noncomputable def offset_point_kmR (lat lon r_km angle_turns : ℝ) : ℝ × ℝ :=
  let ang := 2 * Real.pi * angle_turns
  let dlat := r_km * Real.cos ang / 111
  let dlon := r_km * Real.sin ang / (111 * max 0.2 (Real.cos (radiansR lat)))
  (lat + dlat, lon + dlon)

/-- Python truthiness default `x or d` for an optional float (0.0 is falsy). -/
noncomputable def orDefaultR (v : Option ℝ) (d : ℝ) : ℝ :=
  match v with
  | some x => if x = 0 then d else x
  | none => d

/-- Translation of `lane_anchor` (lines 46-65): for `store:` lanes, the
city centroid (or the rider position when provided and more than 200 km
away) plus the deterministic 1-8 km hash offset; otherwise the rider
position or the Pune default. -/
noncomputable def lane_anchorR (lane_id : String) (rider_lat rider_lon : Option ℝ) :
    ℝ × ℝ × String :=
  if pyStarts lane_id "store:" then
    let parts := pySplit lane_id ':'
    let city := pyUpper (pyStrip (if 1 < parts.length then parts.getD 1 "" else ""))
    let base : ℝ × ℝ :=
      match CITY_CENTROIDS city with
      | some p => ((p.1 : ℝ), (p.2 : ℝ))
      | none => (orDefaultR rider_lat 18.5204, orDefaultR rider_lon 73.8567)
    let base2 : ℝ × ℝ :=
      match rider_lat, rider_lon with
      | some rlat, some rlon =>
          if 200 < haversineR rlat rlon base.1 base.2 then (rlat, rlon) else base
      | _, _ => base
    let u1 : ℝ := (stable_unit_interval (lane_id ++ ":r") : ℚ)
    let u2 : ℝ := (stable_unit_interval (lane_id ++ ":a") : ℚ)
    let r_km := 1 + 7 * u1
    let p := offset_point_kmR base2.1 base2.2 r_km u2
    (p.1, p.2, "store:stable_offset")
  else
    (orDefaultR rider_lat 18.5204, orDefaultR rider_lon 73.8567,
     "fallback:rider_or_city")

/-! ## The double-assignment property (claims about §8 of the spec) -/

/-- Inbox state of a (operator, request) pair, with a missing row read as
NEW (absence is semantically equivalent to NEW). -/
def inboxStateD (db : DB) (op rid : String) : InboxState :=
  match findInboxRow db op rid with
  | some st => st.state
  | none => InboxState.NEW

/-- A double assignment: two distinct requests of the same operator that
are simultaneously ONBOARDED with the same non-null matched vehicle. -/
def assignmentClash (db : DB) : Prop :=
  ∃ r1 ∈ db.requests, ∃ r2 ∈ db.requests,
    r1.id ≠ r2.id ∧ r1.operator_id ≠ none ∧ r1.operator_id = r2.operator_id ∧
    r1.matched_vehicle_id ≠ none ∧
    r1.matched_vehicle_id = r2.matched_vehicle_id ∧
    inboxStateD db (r1.operator_id.getD "") r1.id = InboxState.ONBOARDED ∧
    inboxStateD db (r2.operator_id.getD "") r2.id = InboxState.ONBOARDED

instance (db : DB) : Decidable (assignmentClash db) := by
  unfold assignmentClash
  exact List.decidableBEx _ db.requests


/-! ## Concrete instances used by witnesses and counterexamples -/

/-- Witness commitment for the C6 scenario. -/
def c6Commitment : Commitment :=
  ⟨"c1", "r1", "op1", "store:PUNE:WAKAD", CommitmentLockMode.HIDE_ALL_DEMAND,
   CommitmentStatus.ACTIVE, 0, 100, 0, none, none⟩

/-- Witness store for the C6 scenario. -/
def c6Db : DB := ⟨[], [], [], [c6Commitment], [], 0⟩

/-- Older ACTIVE commitment whose window contains the probe time. -/
def c7Older : Commitment :=
  ⟨"c-old", "r1", "op1", "store:PUNE:WAKAD", CommitmentLockMode.RESTRICT_TO_LANE,
   CommitmentStatus.ACTIVE, 0, 100, 0, none, none⟩

/-- Later-created ACTIVE commitment whose window has already ended at the
probe time. -/
def c7Newer : Commitment :=
  ⟨"c-new", "r1", "op1", "store:PUNE:WAKAD", CommitmentLockMode.RESTRICT_TO_LANE,
   CommitmentStatus.ACTIVE, 1, 2, 1, none, none⟩

/-- Store holding both C7 commitments. -/
def c7Db : DB := ⟨[], [], [], [c7Older, c7Newer], [], 0⟩

/-- Witness store for the amended C7 claim: a single in-window ACTIVE
commitment. -/
def c7WitnessDb : DB := ⟨[], [], [], [c7Older], [], 0⟩

/-- A degenerate geometry oracle (constant zero distance, constant anchor)
used to instantiate oracle-parameterized theorems at concrete inputs. -/
def gZero : Geo := ⟨fun _ _ _ _ => 0, fun _ _ _ => (0, 0)⟩

/-- Vehicle already assigned in the C2 scenario. -/
def c2Vehicle : Vehicle :=
  ⟨"v1", "op1", "MH12EL1234", VehicleStatus.ACTIVE, some 0, some 0, some 50,
   some 0, 0⟩

/-- Request already ONBOARDED with vehicle v1 in the C2 scenario. -/
def c2Req : SupplyRequest :=
  ⟨"r1", "rider1", "store:PUNE:WAKAD", none, none, some "op1", none,
   some "v1", some 90, some ["distance≈0.0km"], none, none,
   SupplyRequestStatus.MATCHED, 0⟩

/-- ONBOARDED inbox row of the C2 scenario. -/
def c2Row : OperatorRequestInbox :=
  ⟨"op1", "r1", InboxState.ONBOARDED, some "accepted", 0⟩

/-- Store of the C2 scenario. -/
def c2Db : DB := ⟨[c2Req], [c2Row], [c2Vehicle], [], [⟨"op1", "Op One"⟩], 0⟩

/-- Request of the C3 scenario (not yet ONBOARDED). -/
def c3Req : SupplyRequest :=
  ⟨"r1", "rider1", "store:PUNE:WAKAD", none, none, some "op1", none, none,
   none, none, none, none, SupplyRequestStatus.MATCHED, 0⟩

/-- Store of the C3 scenario: the operator owns no vehicle at all. -/
def c3Db : DB := ⟨[c3Req], [], [], [], [⟨"op1", "Op One"⟩], 0⟩

/-- Assigned vehicle of the C9/C10 pickup scenarios. -/
def c9Vehicle : Vehicle :=
  ⟨"v1", "op1", "MH12EL9999", VehicleStatus.ACTIVE, some 0, some 0, some 50,
   some 0, 0⟩

/-- ONBOARDED, not yet verified request of the C9 scenario. -/
def c9Req : SupplyRequest :=
  ⟨"r1", "rider1", "store:PUNE:WAKAD", none, none, some "op1", none,
   some "v1", some 90, none, none, none, SupplyRequestStatus.MATCHED, 0⟩

/-- ONBOARDED inbox row of the C9 scenario. -/
def c9Row : OperatorRequestInbox := ⟨"op1", "r1", InboxState.ONBOARDED, none, 0⟩

/-- Store of the C9 scenario. -/
def c9Db : DB := ⟨[c9Req], [c9Row], [c9Vehicle], [], [⟨"op1", "Op One"⟩], 0⟩

/-- The correct short pickup code of the C9 scenario. -/
def c9Code : String := pickup_qr_code "secret" "r1" (some "op1") (some "MH12EL9999")

/-- Already verified request of the C10 scenario. -/
def c10Req : SupplyRequest :=
  ⟨"r1", "rider1", "store:PUNE:WAKAD", none, none, some "op1", none,
   some "v1", some 90, none, some 7, some "u0", SupplyRequestStatus.MATCHED, 0⟩

/-- Store of the C10 scenario. -/
def c10Db : DB := ⟨[c10Req], [c9Row], [c9Vehicle], [], [⟨"op1", "Op One"⟩], 0⟩

/-- An in-maintenance vehicle probed by the C4 witness. -/
def c4Vehicle : Vehicle :=
  ⟨"v4", "op1", "MH12EL0004", VehicleStatus.IN_MAINTENANCE, some 1, some 1,
   some 80, some 0, 0⟩

/-- Vehicle shared by both requests of the C1 counterexample. -/
def c1Vehicle : Vehicle :=
  ⟨"v1", "op1", "MH12EL0001", VehicleStatus.ACTIVE, some 0, some 0, some 50,
   some 0, 0⟩

/-- Request A, already ONBOARDED with vehicle v1. -/
def c1ReqA : SupplyRequest :=
  ⟨"rA", "rider-A", "store:PUNE:WAKAD", none, none, some "op1", none,
   some "v1", some 90, none, none, none, SupplyRequestStatus.MATCHED, 0⟩

/-- Request B of a different rider, whose persisted recommendation is the
same vehicle v1 (recommend does not exclude blocked vehicles), not yet
ONBOARDED. -/
def c1ReqB : SupplyRequest :=
  ⟨"rB", "rider-B", "store:PUNE:WAKAD", none, none, some "op1", none,
   some "v1", some 90, none, none, none, SupplyRequestStatus.MATCHED, 1⟩

/-- Store of the C1 counterexample: A is ONBOARDED with v1, B is NEW. -/
def c1Db : DB :=
  ⟨[c1ReqA, c1ReqB], [⟨"op1", "rA", InboxState.ONBOARDED, none, 0⟩],
   [c1Vehicle], [], [⟨"op1", "Op One"⟩], 0⟩

/-- Witness store for the amended C1 claim. -/
def c1WitnessDb : DB :=
  ⟨[c1ReqA], [⟨"op1", "rA", InboxState.ONBOARDED, none, 0⟩], [c1Vehicle], [],
   [⟨"op1", "Op One"⟩], 0⟩

/-- Spec-active request of the C5 counterexample: pickup unverified and
status MATCHED, but its only inbox row is REJECTED. -/
def c5Req : SupplyRequest :=
  ⟨"r-old", "rider1", "store:PUNE:WAKAD", none, none, some "op1", none, none,
   none, none, none, none, SupplyRequestStatus.MATCHED, 0⟩

/-- Store of the C5 counterexample. -/
def c5Db : DB :=
  ⟨[c5Req], [⟨"op1", "r-old", InboxState.REJECTED, none, 0⟩], [], [],
   [⟨"op1", "Op One"⟩], 0⟩

/-- Store of the C5 witness: the same request with its inbox row still
NEW, which does block creation. -/
def c5WitnessDb : DB :=
  ⟨[c5Req], [⟨"op1", "r-old", InboxState.NEW, none, 0⟩], [], [],
   [⟨"op1", "Op One"⟩], 0⟩

/-! # Theorems -/

/-! ## Commitment policy: foldl characterization -/

/-- The `newerOf` fold returns a member of the list (or the accumulator)
whose creation time dominates every list element and the accumulator. -/
theorem foldl_newerOf_spec :
    ∀ (l : List Commitment) (acc : Option Commitment) (x : Commitment),
      l.foldl newerOf acc = some x →
      (∀ y ∈ l, y.created_at ≤ x.created_at) ∧
      (∀ b, acc = some b → b.created_at ≤ x.created_at) ∧
      (x ∈ l ∨ acc = some x) := by
  intro l
  induction l with
  | nil =>
      intro acc x h
      simp only [List.foldl_nil] at h
      refine ⟨by simp, ?_, Or.inr h⟩
      intro b hb
      rw [hb] at h
      cases h
      exact le_refl _
  | cons c t ih =>
      intro acc x h
      simp only [List.foldl_cons] at h
      obtain ⟨ht, hacc, hmem⟩ := ih (newerOf acc c) x h
      have hstep : ∃ b, newerOf acc c = some b ∧ c.created_at ≤ b.created_at ∧
          (∀ a, acc = some a → a.created_at ≤ b.created_at) ∧
          (b = c ∨ acc = some b) := by
        cases acc with
        | none =>
            refine ⟨c, rfl, le_refl _, ?_, Or.inl rfl⟩
            intro a ha
            cases ha
        | some a =>
            by_cases hlt : a.created_at < c.created_at
            · refine ⟨c, ?_, le_refl _, ?_, Or.inl rfl⟩
              · simp only [newerOf, if_pos hlt]
              · intro a2 ha2
                cases ha2
                exact le_of_lt hlt
            · refine ⟨a, ?_, le_of_not_lt hlt, ?_, Or.inr rfl⟩
              · simp only [newerOf, if_neg hlt]
              · intro a2 ha2
                cases ha2
                exact le_refl _
      obtain ⟨b, hb, hcb, haccb, hb_or⟩ := hstep
      have hbx : b.created_at ≤ x.created_at := hacc b hb
      refine ⟨?_, ?_, ?_⟩
      · intro y hy
        cases List.mem_cons.mp hy with
        | inl hyc => exact hyc ▸ le_trans hcb hbx
        | inr hyt => exact ht y hyt
      · intro a ha
        exact le_trans (haccb a ha) hbx
      · cases hmem with
        | inl hxt => exact Or.inl (List.mem_cons_of_mem _ hxt)
        | inr hx =>
            rw [hb] at hx
            cases hx
            cases hb_or with
            | inl hbc => exact Or.inl (hbc ▸ List.mem_cons_self _ _)
            | inr hba => exact Or.inr hba

/-- When the rider's ACTIVE commitments filtered list is known, the newest
query returns its fold. -/
theorem newestActive_of_filter (db : DB) (rider : String) (c : Commitment)
    (hc : db.commitments.filter (fun x => decide (x.rider_id = rider)) = [c])
    (hact : c.status = CommitmentStatus.ACTIVE) :
    newestActiveCommitment db rider = some c := by
  unfold newestActiveCommitment
  have hcomm : (fun x : Commitment => decide (x.rider_id = rider)
      && decide (x.status = CommitmentStatus.ACTIVE))
      = (fun x : Commitment => decide (x.status = CommitmentStatus.ACTIVE)
      && decide (x.rider_id = rider)) := by
    funext x
    exact Bool.and_comm _ _
  rw [hcomm, ← List.filter_filter, hc]
  simp [hact, newerOf]

/-- C6: with a single ACTIVE HIDE_ALL_DEMAND commitment whose window
contains now, check_access(VIEW_DEMAND) denies with unlock_at = ends_at;
after ends_at it allows; and with no active commitment at all it allows
(fail-open default). -/
theorem claim_C6_check_access_hide_all_demand (db : DB) (rider : String)
    (c : Commitment) (now now2 : ℚ)
    (hc : db.commitments.filter (fun x => decide (x.rider_id = rider)) = [c])
    (hact : c.status = CommitmentStatus.ACTIVE)
    (hmode : c.lock_mode = CommitmentLockMode.HIDE_ALL_DEMAND)
    (h1 : c.starts_at ≤ now) (h2 : now < c.ends_at) (h3 : c.ends_at ≤ now2) :
    check_access db rider "VIEW_DEMAND" now
      = ⟨false, some "COMMITMENT_LOCKED", some c.ends_at, none⟩
    ∧ check_access db rider "VIEW_DEMAND" now2 = ⟨true, none, none, none⟩
    ∧ ∀ (db0 : DB) (r0 : String) (now0 : ℚ),
        get_active_commitment db0 r0 now0 = none →
        check_access db0 r0 "VIEW_DEMAND" now0 = ⟨true, none, none, none⟩ := by
  have hnewest := newestActive_of_filter db rider c hc hact
  refine ⟨?_, ?_, ?_⟩
  · have hga : get_active_commitment db rider now = some c := by
      unfold get_active_commitment
      rw [hnewest]
      simp [Commitment.is_active_at, hact, h1, h2]
    unfold check_access
    rw [hga]
    simp [hmode]
  · have hga : get_active_commitment db rider now2 = none := by
      unfold get_active_commitment
      rw [hnewest]
      simp [Commitment.is_active_at, not_lt_of_le h3]
    unfold check_access
    rw [hga]
  · intro db0 r0 now0 hga
    unfold check_access
    rw [hga]

/-- Witness for C6 at a concrete store: one ACTIVE HIDE_ALL_DEMAND
commitment with window [0, 100), probed at 50 and 150. -/
theorem claim_C6_witness :
    (c6Db.commitments.filter (fun x => decide (x.rider_id = "r1")) = [c6Commitment]
      ∧ c6Commitment.status = CommitmentStatus.ACTIVE
      ∧ c6Commitment.lock_mode = CommitmentLockMode.HIDE_ALL_DEMAND
      ∧ c6Commitment.starts_at ≤ 50 ∧ (50 : ℚ) < c6Commitment.ends_at
      ∧ c6Commitment.ends_at ≤ 150)
    ∧ check_access c6Db "r1" "VIEW_DEMAND" 50
        = ⟨false, some "COMMITMENT_LOCKED", some c6Commitment.ends_at, none⟩
    ∧ check_access c6Db "r1" "VIEW_DEMAND" 150 = ⟨true, none, none, none⟩ := by
  have h := claim_C6_check_access_hide_all_demand c6Db "r1" c6Commitment 50 150
    (by decide) (by decide) (by decide) (by decide) (by decide) (by decide)
  exact ⟨⟨by decide, by decide, by decide, by decide, by decide, by decide⟩,
    h.1, h.2.1⟩

/-- C7 (amended): whatever `get_active` returns is a stored ACTIVE
commitment of the rider whose window contains now and whose creation time
dominates every ACTIVE commitment of the rider — the code inspects only
the most recently created ACTIVE commitment. -/
theorem claim_C7_get_active_newest_only (db : DB) (rider : String) (now : ℚ)
    (c : Commitment) (h : get_active_commitment db rider now = some c) :
    c ∈ db.commitments ∧ c.rider_id = rider
      ∧ c.status = CommitmentStatus.ACTIVE
      ∧ c.starts_at ≤ now ∧ now < c.ends_at
      ∧ ∀ c' ∈ db.commitments, c'.rider_id = rider →
          c'.status = CommitmentStatus.ACTIVE →
          c'.created_at ≤ c.created_at := by
  unfold get_active_commitment at h
  cases hn : newestActiveCommitment db rider with
  | none => rw [hn] at h; cases h
  | some b =>
      rw [hn] at h
      simp only [] at h
      by_cases hb : b.is_active_at now = true
      · rw [if_pos hb] at h
        cases h
        unfold newestActiveCommitment at hn
        obtain ⟨hall, -, hmem⟩ := foldl_newerOf_spec _ none c hn
        have hcf : c ∈ db.commitments.filter fun x =>
            decide (x.rider_id = rider) && decide (x.status = CommitmentStatus.ACTIVE) := by
          cases hmem with
          | inl hm => exact hm
          | inr habs => cases habs
        obtain ⟨hcm, hcp⟩ := List.mem_filter.mp hcf
        simp only [Bool.and_eq_true, decide_eq_true_eq] at hcp
        unfold Commitment.is_active_at at hb
        simp only [Bool.and_eq_true, decide_eq_true_eq] at hb
        refine ⟨hcm, hcp.1, hcp.2, hb.1.2, hb.2, ?_⟩
        intro c' hc' hr hs
        exact hall c' (List.mem_filter.mpr ⟨hc', by simp [hr, hs]⟩)
      · rw [if_neg hb] at h
        cases h

/-- C7 counterexample: the rider holds two ACTIVE commitments; only the
older one's window contains now, yet `get_active` returns none because it
checks only the most recently created one — refuting "null exactly when no
ACTIVE commitment's window contains now". -/
theorem claim_C7_counterexample :
    (c7Older ∈ c7Db.commitments ∧ c7Older.rider_id = "r1"
      ∧ c7Older.status = CommitmentStatus.ACTIVE
      ∧ c7Older.starts_at ≤ 50 ∧ (50 : ℚ) < c7Older.ends_at)
    ∧ get_active_commitment c7Db "r1" 50 = none := by decide

/-- Witness for the amended C7 claim at a concrete store. -/
theorem claim_C7_witness :
    get_active_commitment c7WitnessDb "r1" 50 = some c7Older
    ∧ (c7Older ∈ c7WitnessDb.commitments ∧ c7Older.rider_id = "r1"
      ∧ c7Older.status = CommitmentStatus.ACTIVE
      ∧ c7Older.starts_at ≤ 50 ∧ (50 : ℚ) < c7Older.ends_at
      ∧ ∀ c' ∈ c7WitnessDb.commitments, c'.rider_id = "r1" →
          c'.status = CommitmentStatus.ACTIVE →
          c'.created_at ≤ c7Older.created_at) :=
  ⟨by decide, claim_C7_get_active_newest_only c7WitnessDb "r1" 50 c7Older (by decide)⟩

/-! ## Accept: claims C2 and C3 -/

/-- C2: when the inbox row is already ONBOARDED, accept returns the stored
assignment (matched vehicle, score and reasons) with the store untouched —
in particular no inbox write and no new Commitment row. -/
theorem claim_C2_accept_idempotent_short_circuit (geo : Geo) (db : DB)
    (op rid : String) (note : Option String) (now : ℚ) (req : SupplyRequest)
    (st : OperatorRequestInbox)
    (hreq : findRequest db op rid = some req)
    (hst : findInboxRow db op rid = some st)
    (hON : st.state = InboxState.ONBOARDED) :
    accept geo db op rid note now = (db, Except.ok
      { state := InboxState.ONBOARDED
        matched_vehicle_id := req.matched_vehicle_id.getD ""
        matched_vehicle_registration_number :=
          (match req.matched_vehicle_id with
           | some vid =>
              match getVehicle db vid with
              | some v => v.registration_number
              | none => ""
           | none => "")
        matched_score := req.matched_score
        matched_reasons := req.matched_reasons }) := by
  unfold accept
  rw [hreq]
  simp only []
  rw [hst]
  simp only []
  rw [if_pos hON]

/-- All three selection queries come back empty when every ACTIVE vehicle
of the operator is blocked (or no ACTIVE vehicle exists at all). -/
theorem acceptChosen_eq_none (geo : Geo) (db : DB) (op : String)
    (req : SupplyRequest)
    (h : ∀ v ∈ db.vehicles, v.operator_id = op → v.status = VehicleStatus.ACTIVE →
      v.id ∈ blockedVehicleIds db op) :
    acceptChosen geo db op req = none := by
  have hwide : acceptWideQuery db op = none := by
    unfold acceptWideQuery
    have hnil : (db.vehicles.filter fun v =>
        decide (v.operator_id = op) && decide (v.status = VehicleStatus.ACTIVE)
          && !(blockedVehicleIds db op).contains v.id) = [] := by
      rw [List.filter_eq_nil_iff]
      intro v hv
      simp only [Bool.and_eq_true, Bool.not_eq_true', decide_eq_true_eq]
      rintro ⟨⟨hop, hact⟩, hnc⟩
      have hc : (blockedVehicleIds db op).contains v.id = true :=
        List.elem_iff.mpr (h v hv hop hact)
      rw [hnc] at hc
      exact Bool.noConfusion hc
    rw [hnil]
    rfl
  have hbox : acceptBoxQuery geo db op req = none := by
    unfold acceptBoxQuery
    have hnil : (db.vehicles.filter fun v =>
        decide (v.operator_id = op) && decide (v.status = VehicleStatus.ACTIVE)
          && !(blockedVehicleIds db op).contains v.id && acceptInBox geo req v) = [] := by
      rw [List.filter_eq_nil_iff]
      intro v hv
      simp only [Bool.and_eq_true, Bool.not_eq_true', decide_eq_true_eq]
      rintro ⟨⟨⟨hop, hact⟩, hnc⟩, -⟩
      have hc : (blockedVehicleIds db op).contains v.id = true :=
        List.elem_iff.mpr (h v hv hop hact)
      rw [hnc] at hc
      exact Bool.noConfusion hc
    rw [hnil]
    rfl
  have hpref : acceptPreferred geo db op req = none := by
    unfold acceptPreferred
    cases hmv : req.matched_vehicle_id with
    | none => rfl
    | some mv =>
        simp only []
        by_cases hg : (decide (mv ≠ "") && !(blockedVehicleIds db op).contains mv) = true
        · rw [if_pos hg]
          rw [List.find?_eq_none]
          intro v hv
          simp only [Bool.and_eq_true, decide_eq_true_eq]
          rintro ⟨⟨⟨hid, hop⟩, hact⟩, -⟩
          have hc : (blockedVehicleIds db op).contains mv = true := by
            rw [← hid]
            exact List.elem_iff.mpr (h v hv hop hact)
          simp only [Bool.and_eq_true, Bool.not_eq_true'] at hg
          rw [hg.2] at hc
          exact Bool.noConfusion hc
        · rw [if_neg hg]
  unfold acceptChosen
  rw [hpref, hbox, hwide]

/-- C3: when the operator has no ACTIVE unblocked vehicle (so neither the
preferred recommendation nor the in-box query nor the wide fallback can
produce one) and the request is not already ONBOARDED, accept raises the
NO_AVAILABLE_VEHICLE conflict and the store is returned unchanged: no
assignment field, inbox row or Commitment row is touched. -/
theorem claim_C3_accept_conflict_no_vehicle (geo : Geo) (db : DB)
    (op rid : String) (note : Option String) (now : ℚ) (req : SupplyRequest)
    (hreq : findRequest db op rid = some req)
    (hnotON : ∀ st, findInboxRow db op rid = some st → st.state ≠ InboxState.ONBOARDED)
    (h : ∀ v ∈ db.vehicles, v.operator_id = op → v.status = VehicleStatus.ACTIVE →
      v.id ∈ blockedVehicleIds db op) :
    accept geo db op rid note now = (db, Except.error errNoAvailableVehicle) := by
  have hchosen := acceptChosen_eq_none geo db op req h
  unfold accept
  rw [hreq]
  simp only []
  cases hst : findInboxRow db op rid with
  | none =>
      simp only []
      unfold acceptAssign
      rw [hchosen]
  | some st =>
      simp only []
      rw [if_neg (hnotON st hst)]
      unfold acceptAssign
      rw [hchosen]

/-- Witness for C2: a store with an ONBOARDED request matched to vehicle
v1; accept returns the stored assignment and leaves the store unchanged. -/
theorem claim_C2_witness :
    (findRequest c2Db "op1" "r1" = some c2Req
      ∧ findInboxRow c2Db "op1" "r1" = some c2Row
      ∧ c2Row.state = InboxState.ONBOARDED)
    ∧ accept gZero c2Db "op1" "r1" none 5
      = (c2Db, Except.ok ⟨InboxState.ONBOARDED, "v1", "MH12EL1234", some 90,
          some ["distance≈0.0km"]⟩) := by
  have h := claim_C2_accept_idempotent_short_circuit gZero c2Db "op1" "r1" none 5
    c2Req c2Row (by decide) (by decide) (by decide)
  exact ⟨⟨by decide, by decide, by decide⟩, h.trans (by decide)⟩

/-- Witness for C3: the operator has zero vehicles, accept conflicts and
the store is unchanged. -/
theorem claim_C3_witness :
    (findRequest c3Db "op1" "r1" = some c3Req)
    ∧ accept gZero c3Db "op1" "r1" none 5
      = (c3Db, Except.error errNoAvailableVehicle) := by
  refine ⟨by decide, ?_⟩
  apply claim_C3_accept_conflict_no_vehicle gZero c3Db "op1" "r1" none 5 c3Req
    (by decide)
  · intro st hst
    have hnone : findInboxRow c3Db "op1" "r1" = none := by decide
    rw [hnone] at hst
    cases hst
  · intro v hv
    simp only [c3Db] at hv
    exact absurd hv (List.not_mem_nil v)

/-! ## Pickup verification: claims C9 and C10 -/

/-- Updating the found request row (by its primary key) makes a subsequent
lookup return the updated row, provided it still satisfies the filter. -/
theorem find?_requests_update (p : SupplyRequest → Bool) (req req' : SupplyRequest)
    (hp' : p req' = true) :
    ∀ l : List SupplyRequest, l.find? p = some req →
      (l.map fun r => if r.id = req.id then req' else r).find? p = some req' := by
  intro l
  induction l with
  | nil => intro h; cases h
  | cons r t ih =>
      intro h
      by_cases hid : r.id = req.id
      · simp only [List.map_cons, if_pos hid, List.find?_cons, hp']
      · simp only [List.map_cons, if_neg hid, List.find?_cons]
        cases hpr : p r with
        | true =>
            rw [List.find?_cons, hpr] at h
            cases h
            exact absurd rfl hid
        | false =>
            rw [List.find?_cons, hpr] at h
            exact ih h
/-- Mapping a guarded update over a list where the guard is the lookup
filter itself: the lookup then returns the update of what it found, as
long as the update preserves the filter. -/
theorem find?_map_guard {α : Type} (p : α → Bool) (cond : α → Prop)
    [DecidablePred cond] (hiff : ∀ r, cond r ↔ p r = true) (g : α → α)
    (hg : ∀ r, p r = true → p (g r) = true) :
    ∀ (l : List α) (a : α), l.find? p = some a →
      (l.map fun r => if cond r then g r else r).find? p = some (g a) := by
  intro l
  induction l with
  | nil => intro a h; cases h
  | cons r t ih =>
      intro a h
      by_cases hc : cond r
      · have hpr : p r = true := (hiff r).mp hc
        rw [List.find?_cons, hpr] at h
        cases h
        simp only [List.map_cons, if_pos hc, List.find?_cons, hg r hpr]
      · have hpr : p r = false := by
          cases hpr : p r with
          | true => exact absurd ((hiff r).mpr hpr) hc
          | false => rfl
        rw [List.find?_cons, hpr] at h
        simp only [List.map_cons, if_neg hc, List.find?_cons, hpr]
        exact ih a h

/-- A request that is ONBOARDED and already verified short-circuits:
verify_pickup returns the stored timestamp and performs no write, for any
entered code. -/
theorem verify_short_circuit (secret : String) (db : DB)
    (op rid code user : String) (now t : ℚ) (req : SupplyRequest)
    (st : OperatorRequestInbox)
    (hreq : findRequest db op rid = some req)
    (hst : findInboxRow db op rid = some st)
    (hON : st.state = InboxState.ONBOARDED)
    (hver : req.pickup_verified_at = some t) :
    verify_pickup_qr secret db op rid code user now = (db, Except.ok t) := by
  unfold verify_pickup_qr
  rw [hreq]
  simp only []
  rw [hst]
  simp only []
  rw [if_neg (by simp [hON])]
  rw [hver]

/-- C9: on an ONBOARDED, not yet verified request, verify_pickup with the
correct code records the verification and returns it, and a repeated call
returns the same original timestamp with no further write; with an
incorrect code it raises the INVALID_PICKUP_CODE validation error and the
store is returned unchanged. -/
theorem claim_C9_verify_pickup_idempotent_and_validation (secret : String)
    (db : DB) (op rid code user : String) (now : ℚ) (req : SupplyRequest)
    (st : OperatorRequestInbox)
    (hreq : findRequest db op rid = some req)
    (hst : findInboxRow db op rid = some st)
    (hON : st.state = InboxState.ONBOARDED)
    (hunv : req.pickup_verified_at = none) :
    (pyUpper (pyStrip code) = pickup_qr_code secret req.id req.operator_id
        ((match req.matched_vehicle_id with
          | some vid => getVehicle db vid
          | none => none : Option Vehicle).map fun v => v.registration_number) →
      ∃ db1, verify_pickup_qr secret db op rid code user now = (db1, Except.ok now)
        ∧ ∀ code2 user2 now2,
            verify_pickup_qr secret db1 op rid code2 user2 now2 = (db1, Except.ok now))
    ∧ (pyUpper (pyStrip code) ≠ pickup_qr_code secret req.id req.operator_id
        ((match req.matched_vehicle_id with
          | some vid => getVehicle db vid
          | none => none : Option Vehicle).map fun v => v.registration_number) →
      verify_pickup_qr secret db op rid code user now
        = (db, Except.error errInvalidPickupCode)) := by
  have hreq' : db.requests.find? (fun r =>
      decide (r.id = rid) && decide (r.operator_id = some op)) = some req := hreq
  have hst' : db.inbox.find? (fun s =>
      decide (s.operator_id = op) && decide (s.supply_request_id = rid)) = some st := hst
  constructor
  · intro hcode
    unfold verify_pickup_qr
    rw [hreq]
    simp only []
    rw [hst]
    simp only []
    rw [if_neg (by simp [hON])]
    rw [hunv]
    simp only []
    rw [if_neg (by simp [hcode])]
    refine ⟨_, rfl, ?_⟩
    intro code2 user2 now2
    have hpreq := List.find?_some hreq'
    have hpreq' : (fun r : SupplyRequest =>
        decide (r.id = rid) && decide (r.operator_id = some op))
        { req with pickup_verified_at := some now,
                   pickup_verified_by_user_id := some user } = true := by
      simp only [Bool.and_eq_true, decide_eq_true_eq] at hpreq ⊢
      exact hpreq
    have hfind1 := find?_requests_update _ req
      { req with pickup_verified_at := some now,
                 pickup_verified_by_user_id := some user } hpreq' db.requests hreq'
    have hfind2 := find?_map_guard
      (fun s : OperatorRequestInbox =>
        decide (s.operator_id = op) && decide (s.supply_request_id = rid))
      (fun s => s.operator_id = op ∧ s.supply_request_id = rid)
      (by intro r; simp)
      (fun s => { s with note := some "Pickup verified (QR).", updated_at := now })
      (by intro r hr; simpa using hr)
      db.inbox st hst'
    exact verify_short_circuit secret _ op rid code2 user2 now2 now
      { req with pickup_verified_at := some now,
                 pickup_verified_by_user_id := some user }
      { st with note := some "Pickup verified (QR).", updated_at := now }
      hfind1 hfind2 (by simpa using hON) rfl
  · intro hcode
    unfold verify_pickup_qr
    rw [hreq]
    simp only []
    rw [hst]
    simp only []
    rw [if_neg (by simp [hON])]
    rw [hunv]
    simp only []
    rw [if_pos hcode]

/-- C10: once pickup_verified_at is set (and the request still ONBOARDED),
every verify_pickup call returns the original timestamp with the store
unchanged, for every entered code — the code comparison is skipped. -/
theorem claim_C10_verify_skips_code_when_already_verified (secret : String)
    (db : DB) (op rid code user : String) (now t : ℚ) (req : SupplyRequest)
    (st : OperatorRequestInbox)
    (hreq : findRequest db op rid = some req)
    (hst : findInboxRow db op rid = some st)
    (hON : st.state = InboxState.ONBOARDED)
    (hver : req.pickup_verified_at = some t) :
    verify_pickup_qr secret db op rid code user now = (db, Except.ok t) := by
  unfold verify_pickup_qr
  rw [hreq]
  simp only []
  rw [hst]
  simp only []
  rw [if_neg (by simp [hON])]
  rw [hver]

set_option maxRecDepth 200000 in
/-- Witness for C9 at a concrete store and secret: the correct code
verifies and repeats idempotently; the empty (wrong) code raises the
validation error without a write. -/
theorem claim_C9_witness :
    (findRequest c9Db "op1" "r1" = some c9Req
      ∧ findInboxRow c9Db "op1" "r1" = some c9Row
      ∧ c9Row.state = InboxState.ONBOARDED
      ∧ c9Req.pickup_verified_at = none)
    ∧ (∃ db1, verify_pickup_qr "secret" c9Db "op1" "r1" c9Code "u1" 42
          = (db1, Except.ok 42)
        ∧ ∀ code2 user2 now2,
            verify_pickup_qr "secret" db1 "op1" "r1" code2 user2 now2
              = (db1, Except.ok 42))
    ∧ verify_pickup_qr "secret" c9Db "op1" "r1" "" "u1" 42
        = (c9Db, Except.error errInvalidPickupCode) := by
  have h1 := claim_C9_verify_pickup_idempotent_and_validation "secret" c9Db
    "op1" "r1" c9Code "u1" 42 c9Req c9Row (by decide) (by decide) (by decide)
    (by decide)
  have h2 := claim_C9_verify_pickup_idempotent_and_validation "secret" c9Db
    "op1" "r1" "" "u1" 42 c9Req c9Row (by decide) (by decide) (by decide)
    (by decide)
  exact ⟨⟨by decide, by decide, by decide, by decide⟩,
    h1.1 (by decide), h2.2 (by decide)⟩

/-- Witness for C10 at a concrete store: an arbitrary wrong code still
returns the original verification timestamp. -/
theorem claim_C10_witness :
    (findRequest c10Db "op1" "r1" = some c10Req
      ∧ findInboxRow c10Db "op1" "r1" = some c9Row
      ∧ c9Row.state = InboxState.ONBOARDED
      ∧ c10Req.pickup_verified_at = some 7)
    ∧ verify_pickup_qr "secret" c10Db "op1" "r1" "TOTALLY-WRONG" "u1" 42
        = (c10Db, Except.ok 7) :=
  ⟨⟨by decide, by decide, by decide, by decide⟩,
   claim_C10_verify_skips_code_when_already_verified "secret" c10Db "op1" "r1"
     "TOTALLY-WRONG" "u1" 42 7 c10Req c9Row (by decide) (by decide) (by decide)
     (by decide)⟩

/-! ## Candidate scorer: claim C4 -/

/-- C4: for every distance oracle, snapshot, anchor and constraints the
scorer's score lies in [0, 100], and it is eligible exactly when the
status is ACTIVE, a known position is within max_km of the anchor, a known
battery is at least min_batt, and a telemetry timestamp exists and is at
most max_age_min old — so status, distance, battery and staleness each
force ineligibility independently, while a missing position or a missing
battery alone does not. -/
theorem claim_C4_scorer_bounds_and_eligibility
    (hav : ℚ → ℚ → ℚ → ℚ → ℚ) (now : ℚ) (v : Vehicle)
    (lane_lat lane_lon max_km min_batt max_age_min : ℚ) :
    (0 ≤ (score_vehicle hav now v lane_lat lane_lon max_km min_batt max_age_min).1
      ∧ (score_vehicle hav now v lane_lat lane_lon max_km min_batt max_age_min).1 ≤ 100)
    ∧ ((score_vehicle hav now v lane_lat lane_lon max_km min_batt max_age_min).2.2.2 = true
      ↔ (v.status = VehicleStatus.ACTIVE
        ∧ (∀ la lo, v.last_lat = some la → v.last_lon = some lo →
            hav la lo lane_lat lane_lon ≤ max_km)
        ∧ (∀ b, v.battery_pct = some b → min_batt ≤ b)
        ∧ (∃ t, v.last_telemetry_at = some t ∧ (now - t) / 60 ≤ max_age_min))) := by
  constructor
  · exact ⟨le_max_left _ _, max_le (by norm_num) (min_le_left _ _)⟩
  · rcases v with ⟨vid, vop, vreg, vstatus, vlat, vlon, vbatt, vtel, vcreated⟩
    rcases vstatus <;> rcases vlat with _ | la <;> rcases vlon with _ | lo <;>
      rcases vbatt with _ | b <;> rcases vtel with _ | t <;>
      simp only [score_vehicle] <;>
      (try split_ifs) <;>
      simp_all

set_option maxRecDepth 4000 in
/-- Witness for C4 at a concrete input: an IN_MAINTENANCE vehicle is
scored inside [0, 100] yet ineligible (its status predicate fails). -/
theorem claim_C4_witness :
    ((0 ≤ (score_vehicle (fun _ _ _ _ => 3) 0 c4Vehicle 0 0 12 20 240).1
      ∧ (score_vehicle (fun _ _ _ _ => 3) 0 c4Vehicle 0 0 12 20 240).1 ≤ 100)
    ∧ ((score_vehicle (fun _ _ _ _ => 3) 0 c4Vehicle 0 0 12 20 240).2.2.2 = true
      ↔ (c4Vehicle.status = VehicleStatus.ACTIVE
        ∧ (∀ la lo, c4Vehicle.last_lat = some la → c4Vehicle.last_lon = some lo →
            (fun _ _ _ _ => (3 : ℚ)) la lo 0 0 ≤ 12)
        ∧ (∀ b, c4Vehicle.battery_pct = some b → 20 ≤ b)
        ∧ (∃ t, c4Vehicle.last_telemetry_at = some t ∧ ((0 : ℚ) - t) / 60 ≤ 240))))
    ∧ (score_vehicle (fun _ _ _ _ => 3) 0 c4Vehicle 0 0 12 20 240).2.2.2 = false :=
  ⟨claim_C4_scorer_bounds_and_eligibility (fun _ _ _ _ => 3) 0 c4Vehicle 0 0 12 20 240,
   by with_unfolding_all decide⟩

/-! ## Accept: claim C1 (no double assignment) -/

/-- The extremal-element fold of `firstBest` returns a member (or the
accumulator). -/
theorem firstBest_aux_mem :
    ∀ (l : List Vehicle) (acc : Option Vehicle) (v : Vehicle),
      l.foldl (fun acc v =>
        match acc with
        | none => some v
        | some w => if vehicleOrd v w = Ordering.lt then some v else some w) acc = some v →
      acc = some v ∨ v ∈ l := by
  intro l
  induction l with
  | nil => intro acc v h; exact Or.inl h
  | cons a t ih =>
      intro acc v h
      simp only [List.foldl_cons] at h
      cases ih _ v h with
      | inr hv => exact Or.inr (List.mem_cons_of_mem _ hv)
      | inl hstep =>
          cases acc with
          | none =>
              simp only [] at hstep
              cases hstep
              exact Or.inr (List.mem_cons_self _ _)
          | some w =>
              simp only [] at hstep
              by_cases hlt : vehicleOrd a w = Ordering.lt
              · rw [if_pos hlt] at hstep
                cases hstep
                exact Or.inr (List.mem_cons_self _ _)
              · rw [if_neg hlt] at hstep
                exact Or.inl hstep

/-- `firstBest` returns a member of its list. -/
theorem firstBest_mem (l : List Vehicle) (v : Vehicle)
    (h : firstBest l = some v) : v ∈ l := by
  unfold firstBest at h
  cases firstBest_aux_mem l none v h with
  | inl habs => cases habs
  | inr hv => exact hv

/-- Whatever the selection chain picks is a stored vehicle that is not in
the blocked set. -/
theorem acceptChosen_spec (geo : Geo) (db : DB) (op : String)
    (req : SupplyRequest) (v : Vehicle)
    (h : acceptChosen geo db op req = some v) :
    v ∈ db.vehicles ∧ (blockedVehicleIds db op).contains v.id = false := by
  unfold acceptChosen at h
  cases hp : acceptPreferred geo db op req with
  | some w =>
      rw [hp] at h
      cases h
      unfold acceptPreferred at hp
      cases hmv : req.matched_vehicle_id with
      | none => rw [hmv] at hp; cases hp
      | some mv =>
          rw [hmv] at hp
          simp only [] at hp
          by_cases hg : (decide (mv ≠ "") && !(blockedVehicleIds db op).contains mv) = true
          · rw [if_pos hg] at hp
            refine ⟨List.mem_of_find?_eq_some hp, ?_⟩
            have hpred := List.find?_some hp
            simp only [Bool.and_eq_true, decide_eq_true_eq] at hpred
            simp only [Bool.and_eq_true, Bool.not_eq_true'] at hg
            rw [hpred.1.1.1]
            exact hg.2
          · rw [if_neg hg] at hp
            cases hp
  | none =>
      rw [hp] at h
      cases hb : acceptBoxQuery geo db op req with
      | some w =>
          rw [hb] at h
          cases h
          unfold acceptBoxQuery at hb
          have hmemf := firstBest_mem _ _ hb
          obtain ⟨hmem, hpred⟩ := List.mem_filter.mp hmemf
          simp only [Bool.and_eq_true, Bool.not_eq_true'] at hpred
          exact ⟨hmem, hpred.1.2⟩
      | none =>
          rw [hb] at h
          unfold acceptWideQuery at h
          have hmemf := firstBest_mem _ _ h
          obtain ⟨hmem, hpred⟩ := List.mem_filter.mp hmemf
          simp only [Bool.and_eq_true, Bool.not_eq_true'] at hpred
          exact ⟨hmem, hpred.2⟩

/-- A request that is matched to a non-empty vehicle id and ONBOARDED for
the operator puts that vehicle id into the blocked set. -/
theorem mem_blockedVehicleIds (db : DB) (op : String) (r : SupplyRequest)
    (w : String) (hr : r ∈ db.requests) (hm : r.matched_vehicle_id = some w)
    (hw : w ≠ "") (hst : inboxStateD db op r.id = InboxState.ONBOARDED) :
    w ∈ blockedVehicleIds db op := by
  unfold inboxStateD at hst
  cases hfi : findInboxRow db op r.id with
  | none => rw [hfi] at hst; cases hst
  | some s =>
      rw [hfi] at hst
      simp only [] at hst
      have hsmem : s ∈ db.inbox := List.mem_of_find?_eq_some hfi
      have hspred := List.find?_some (p := fun s : OperatorRequestInbox =>
        decide (s.operator_id = op) && decide (s.supply_request_id = r.id))
        (show db.inbox.find? _ = some s from hfi)
      simp only [Bool.and_eq_true, decide_eq_true_eq] at hspred
      unfold blockedVehicleIds
      rw [List.mem_filterMap]
      refine ⟨r, hr, ?_⟩
      rw [hm]
      simp only []
      rw [if_pos]
      rw [Bool.and_eq_true]
      constructor
      · rw [List.any_eq_true]
        exact ⟨s, hsmem, by simp [hspred.1, hspred.2, hst]⟩
      · simpa using hw

/-- Membership in a keyed single-row update of the request table: an
element of the updated list is the replacement row or an untouched row
whose key differs. -/
theorem mem_requests_update {l : List SupplyRequest} {u r : SupplyRequest}
    {k : String} (h : r ∈ l.map fun x => if x.id = k then u else x) :
    r = u ∨ (r ∈ l ∧ r.id ≠ k) := by
  obtain ⟨x, hx, hxr⟩ := List.mem_map.mp h
  by_cases hk : x.id = k
  · rw [if_pos hk] at hxr
    exact Or.inl hxr.symm
  · rw [if_neg hk] at hxr
    exact Or.inr ⟨hxr ▸ hx, hxr ▸ hk⟩

/-- A lookup commutes with mapping a filter-invariant function. -/
theorem find?_map_comm {α : Type} (f : α → α) (p : α → Bool)
    (hp : ∀ s, p (f s) = p s) :
    ∀ l : List α, (l.map f).find? p = (l.find? p).map f := by
  intro l
  induction l with
  | nil => rfl
  | cons a t ih =>
      simp only [List.map_cons, List.find?_cons, hp a]
      cases hpa : p a with
      | true => rfl
      | false => exact ih

/-- The request table after the write phase: only the accepted request's
row changes, to the stored assignment of the chosen vehicle. -/
theorem acceptFinish_requests_shape (geo : Geo) (db : DB) (op rid : String)
    (note : Option String) (now : ℚ) (req : SupplyRequest)
    (st? : Option OperatorRequestInbox) (chosen : Vehicle) :
    ∃ sc rs, (acceptFinish geo db op rid note now req st? chosen).1.requests
      = db.requests.map fun r =>
          if r.id = req.id then
            { req with
              matched_vehicle_id := some chosen.id
              matched_score := sc
              matched_reasons := rs }
          else r := by
  refine ⟨some (score_vehicle geo.hav now chosen
      (geo.anchor req.lane_id none none).1 (geo.anchor req.lane_id none none).2
      12 20 240).1,
    some (score_vehicle geo.hav now chosen
      (geo.anchor req.lane_id none none).1 (geo.anchor req.lane_id none none).2
      12 20 240).2.2.1, ?_⟩
  unfold acceptFinish
  simp only []
  split <;> rfl

/-- The write phase does not change the inbox state of any other
(operator, request) key. -/
theorem inboxStateD_acceptFinish_other (geo : Geo) (db : DB) (op rid : String)
    (note : Option String) (now : ℚ) (req : SupplyRequest)
    (st? : Option OperatorRequestInbox) (chosen : Vehicle)
    (op2 rid2 : String) (hne : ¬(op2 = op ∧ rid2 = rid)) :
    inboxStateD (acceptFinish geo db op rid note now req st? chosen).1 op2 rid2
      = inboxStateD db op2 rid2 := by
  have hinbox : (acceptFinish geo db op rid note now req st? chosen).1.inbox
      = (match st? with
         | some _ =>
            db.inbox.map fun s =>
              if s.operator_id = op ∧ s.supply_request_id = rid then
                { s with
                    state := InboxState.ONBOARDED
                    note := some (note.getD ("Accepted. Auto-assigned vehicle "
                      ++ chosen.registration_number ++ "."))
                    updated_at := now }
              else s
         | none =>
            db.inbox ++ [{ operator_id := op
                           supply_request_id := rid
                           state := InboxState.ONBOARDED
                           note := some (note.getD ("Accepted. Auto-assigned vehicle "
                             ++ chosen.registration_number ++ "."))
                           updated_at := now }]) := by
    unfold acceptFinish
    simp only []
    split <;> rfl
  unfold inboxStateD findInboxRow
  rw [hinbox]
  cases st? with
  | some st0 =>
      simp only []
      rw [find?_map_comm _ _ (by
        intro s
        by_cases hc : s.operator_id = op ∧ s.supply_request_id = rid
        · rw [if_pos hc]
        · rw [if_neg hc])]
      cases hf : db.inbox.find? fun s =>
          decide (s.operator_id = op2) && decide (s.supply_request_id = rid2) with
      | none => rfl
      | some s =>
          simp only [Option.map_some']
          have hpred := List.find?_some hf
          simp only [Bool.and_eq_true, decide_eq_true_eq] at hpred
          rw [if_neg]
          intro hcon
          exact hne ⟨hpred.1 ▸ hcon.1, hpred.2 ▸ hcon.2⟩
  | none =>
      simp only []
      rw [List.find?_append]
      have hrow : (List.find? (fun s =>
          decide (s.operator_id = op2) && decide (s.supply_request_id = rid2))
          [({ operator_id := op
              supply_request_id := rid
              state := InboxState.ONBOARDED
              note := some (note.getD ("Accepted. Auto-assigned vehicle "
                ++ chosen.registration_number ++ "."))
              updated_at := now } : OperatorRequestInbox)]) = none := by
        rw [List.find?_eq_none]
        intro x hx
        rw [List.mem_singleton] at hx
        subst hx
        simp only [Bool.and_eq_true, decide_eq_true_eq]
        intro hcon
        exact hne ⟨hcon.1.symm, hcon.2.symm⟩
      rw [hrow]
      cases db.inbox.find? fun s =>
          decide (s.operator_id = op2) && decide (s.supply_request_id = rid2) <;> rfl

/-- The assignment path preserves absence of double assignments: the
chosen vehicle is never one already bound to an ONBOARDED request of the
operator. -/
theorem acceptAssign_no_clash (geo : Geo) (db : DB) (op rid : String)
    (note : Option String) (now : ℚ) (req : SupplyRequest)
    (st? : Option OperatorRequestInbox)
    (hkid : req.id = rid) (hkop : req.operator_id = some op)
    (hids : ∀ v ∈ db.vehicles, v.id ≠ "")
    (hinv : ¬ assignmentClash db) (db' : DB) (res : Except ApiErr AcceptResult)
    (hacc : acceptAssign geo db op rid note now req st? = (db', res)) :
    ¬ assignmentClash db' := by
  unfold acceptAssign at hacc
  cases hch : acceptChosen geo db op req with
  | none =>
      rw [hch] at hacc
      simp only [] at hacc
      cases hacc
      exact hinv
  | some chosen =>
      rw [hch] at hacc
      simp only [] at hacc
      obtain ⟨hvmem, hnb⟩ := acceptChosen_spec geo db op req chosen hch
      have hwid : chosen.id ≠ "" := hids chosen hvmem
      have hdb' : (acceptFinish geo db op rid note now req st? chosen).1 = db' :=
        congrArg Prod.fst hacc
      obtain ⟨sc, rs, hreqs⟩ :=
        acceptFinish_requests_shape geo db op rid note now req st? chosen
      rw [hdb'] at hreqs
      have hstates : ∀ op2 rid2, ¬(op2 = op ∧ rid2 = rid) →
          inboxStateD db' op2 rid2 = inboxStateD db op2 rid2 := by
        intro op2 rid2 hne
        rw [← hdb']
        exact inboxStateD_acceptFinish_other geo db op rid note now req st? chosen
          op2 rid2 hne
      intro hclash
      obtain ⟨r1, hr1, r2, hr2, hne12, hop1ne, hopeq, hmv1ne, hmveq, hs1, hs2⟩ := hclash
      rw [hreqs] at hr1 hr2
      have hblocked : ∀ r ∈ db.requests, r.id ≠ rid →
          r.operator_id = some op → r.matched_vehicle_id = some chosen.id →
          inboxStateD db' (r.operator_id.getD "") r.id = InboxState.ONBOARDED → False := by
        intro r hrmem hrid hrop hrmv hrst
        have hst : inboxStateD db op r.id = InboxState.ONBOARDED := by
          have := hstates (r.operator_id.getD "") r.id (fun hcon => hrid hcon.2)
          rw [hrop] at this hrst
          simp only [Option.getD_some] at this hrst
          rw [← this]
          exact hrst
        have hmemb := mem_blockedVehicleIds db op r chosen.id hrmem hrmv hwid hst
        rw [← List.elem_iff] at hmemb
        rw [show ((blockedVehicleIds db op).contains chosen.id)
            = (blockedVehicleIds db op).elem chosen.id from rfl] at hnb
        rw [hmemb] at hnb
        exact Bool.noConfusion hnb
      rcases mem_requests_update hr1 with h1U | ⟨h1old, h1id⟩ <;>
        rcases mem_requests_update hr2 with h2U | ⟨h2old, h2id⟩
      · subst h1U
        subst h2U
        exact hne12 rfl
      · subst h1U
        have hop2 : r2.operator_id = some op := by
          rw [← hopeq]
          exact hkop
        have hmv2 : r2.matched_vehicle_id = some chosen.id := by
          rw [← hmveq]
        exact hblocked r2 h2old (by rw [← hkid]; exact h2id) hop2 hmv2 hs2
      · subst h2U
        have hop1 : r1.operator_id = some op := by
          rw [hopeq]
          exact hkop
        have hmv1 : r1.matched_vehicle_id = some chosen.id := by
          rw [hmveq]
        exact hblocked r1 h1old (by rw [← hkid]; exact h1id) hop1 hmv1 hs1
      · refine hinv ⟨r1, h1old, r2, h2old, hne12, hop1ne, hopeq, hmv1ne, hmveq, ?_, ?_⟩
        · rw [← hstates (r1.operator_id.getD "") r1.id
            (fun hcon => h1id (by rw [hkid]; exact hcon.2))]
          exact hs1
        · rw [← hstates (r2.operator_id.getD "") r2.id
            (fun hcon => h2id (by rw [hkid]; exact hcon.2))]
          exact hs2

/-- C1 (amended): accept preserves the no-double-assignment invariant —
it never binds a vehicle that is already the matched vehicle of another
ONBOARDED request of the operator.  (set_inbox_state does not: see the
counterexample.) -/
theorem claim_C1_accept_preserves_no_double_assignment (geo : Geo) (db : DB)
    (op rid : String) (note : Option String) (now : ℚ)
    (hids : ∀ v ∈ db.vehicles, v.id ≠ "")
    (hinv : ¬ assignmentClash db) (db' : DB) (res : Except ApiErr AcceptResult)
    (hacc : accept geo db op rid note now = (db', res)) :
    ¬ assignmentClash db' := by
  unfold accept at hacc
  cases hfr : findRequest db op rid with
  | none =>
      rw [hfr] at hacc
      simp only [] at hacc
      cases hacc
      exact hinv
  | some req =>
      rw [hfr] at hacc
      simp only [] at hacc
      have hreq' : db.requests.find? (fun r =>
          decide (r.id = rid) && decide (r.operator_id = some op)) = some req := hfr
      have hkey := List.find?_some hreq'
      simp only [Bool.and_eq_true, decide_eq_true_eq] at hkey
      cases hfi : findInboxRow db op rid with
      | some st =>
          rw [hfi] at hacc
          simp only [] at hacc
          by_cases hON : st.state = InboxState.ONBOARDED
          · rw [if_pos hON] at hacc
            cases hacc
            exact hinv
          · rw [if_neg hON] at hacc
            exact acceptAssign_no_clash geo db op rid note now req (some st)
              hkey.1 hkey.2 hids hinv db' res hacc
      | none =>
          rw [hfi] at hacc
          simp only [] at hacc
          exact acceptAssign_no_clash geo db op rid note now req none
            hkey.1 hkey.2 hids hinv db' res hacc

/-- Witness for the amended C1 claim at a concrete store. -/
theorem claim_C1_witness :
    (∀ v ∈ c1WitnessDb.vehicles, v.id ≠ "") ∧ ¬ assignmentClash c1WitnessDb
    ∧ ∀ (db' : DB) (res : Except ApiErr AcceptResult),
        accept gZero c1WitnessDb "op1" "rA" none 0 = (db', res) →
        ¬ assignmentClash db' :=
  ⟨by decide, by decide,
   fun db' res h =>
     claim_C1_accept_preserves_no_double_assignment gZero c1WitnessDb "op1" "rA"
       none 0 (by decide) (by decide) db' res h⟩

/-- C1 counterexample: from a clash-free reachable state in which request
B's persisted recommendation equals the vehicle already bound to the
ONBOARDED request A of the same operator, one `set_inbox_state(B,
ONBOARDED)` call leaves both requests simultaneously ONBOARDED with the
same matched vehicle — the claimed invariant does not hold under
set_inbox_state. -/
theorem claim_C1_counterexample :
    ¬ assignmentClash c1Db
    ∧ assignmentClash
        (upsert_inbox_state c1Db "op1" "rB" InboxState.ONBOARDED none 0).1 :=
  ⟨by decide, by decide⟩

/-! ## Supply-request creation: claim C5 -/

/-- The operator-selection stage leaves the identity, rider, lane,
verification and status fields of the fresh request unchanged. -/
theorem createStage_fields (geo : Geo) (db1 : DB) (now : ℚ) (lane_id : String)
    (rider_lat rider_lon : Option ℚ) (operator_id : Option String)
    (req0 : SupplyRequest) :
    (createStage geo db1 now lane_id rider_lat rider_lon operator_id req0).1.id = req0.id
    ∧ (createStage geo db1 now lane_id rider_lat rider_lon operator_id req0).1.rider_id
        = req0.rider_id
    ∧ (createStage geo db1 now lane_id rider_lat rider_lon operator_id req0).1.lane_id
        = req0.lane_id
    ∧ (createStage geo db1 now lane_id rider_lat rider_lon operator_id req0).1.pickup_verified_at
        = req0.pickup_verified_at
    ∧ (createStage geo db1 now lane_id rider_lat rider_lon operator_id req0).1.status
        = req0.status := by
  unfold createStage
  split
  · simp only []
    split <;> exact ⟨rfl, rfl, rfl, rfl, rfl⟩
  · exact ⟨rfl, rfl, rfl, rfl, rfl⟩

/-- Updating by a key that no list element carries is the identity. -/
theorem map_update_fresh (l : List SupplyRequest) (u : SupplyRequest) (k : String)
    (h : ∀ r ∈ l, r.id ≠ k) : (l.map fun r => if r.id = k then u else r) = l := by
  induction l with
  | nil => rfl
  | cons a t ih =>
      simp only [List.map_cons]
      rw [if_neg (h a (List.mem_cons_self a t))]
      rw [ih fun r hr => h r (List.mem_cons_of_mem a hr)]

/-- C5 (amended): create_supply_request fails with the
ACTIVE_REQUEST_EXISTS conflict exactly when the rider has a request that
is active in the code's sense (pickup unverified, status not REJECTED, and
no inbox row marking it REJECTED); otherwise it appends one new MATCHED
request for the rider.  A request whose only inbox row is REJECTED does
not block creation. -/
theorem claim_C5_create_request_gate (geo : Geo) (db : DB)
    (rider_id lane_id : String) (time_window requirements : Option String)
    (rider_lat rider_lon : Option ℚ) (operator_id : Option String) (now : ℚ)
    (hfresh : ∀ r ∈ db.requests, r.id ≠ "request-" ++ toString db.gen) :
    ((∃ r ∈ db.requests, r.rider_id = rider_id ∧ codeActiveRequest db r = true) →
      create_supply_request geo db rider_id lane_id time_window requirements
        rider_lat rider_lon operator_id now = (db, Except.error errActiveRequestExists))
    ∧ ((¬ ∃ r ∈ db.requests, r.rider_id = rider_id ∧ codeActiveRequest db r = true) →
      ∃ reqF db2, create_supply_request geo db rider_id lane_id time_window
          requirements rider_lat rider_lon operator_id now = (db2, Except.ok reqF)
        ∧ reqF.rider_id = rider_id
        ∧ reqF.lane_id = lane_id
        ∧ reqF.status = SupplyRequestStatus.MATCHED
        ∧ reqF.pickup_verified_at = none
        ∧ reqF.operator_id.isSome = true
        ∧ db2.requests = db.requests ++ [reqF]
        ∧ db2.inbox = db.inbox
        ∧ db2.commitments = db.commitments) := by
  constructor
  · rintro ⟨r, hr, hrr, hact⟩
    unfold create_supply_request
    rw [if_pos]
    rw [List.any_eq_true]
    exact ⟨r, hr, by simp [hrr, hact]⟩
  · intro hno
    have hfalse : (db.requests.any fun r =>
        decide (r.rider_id = rider_id) && codeActiveRequest db r) = false := by
      cases hany : db.requests.any fun r =>
          decide (r.rider_id = rider_id) && codeActiveRequest db r with
      | false => rfl
      | true =>
          rw [List.any_eq_true] at hany
          obtain ⟨r, hr, hp⟩ := hany
          simp only [Bool.and_eq_true, decide_eq_true_eq] at hp
          exact absurd ⟨r, hr, hp.1, hp.2⟩ hno
    unfold create_supply_request
    rw [if_neg (by simp [hfalse])]
    simp only []
    refine ⟨_, _, rfl, ?_, ?_, ?_, ?_, ?_, ?_, ?_, ?_⟩
    · exact (createStage_fields _ _ _ _ _ _ _ _).2.1
    · exact (createStage_fields _ _ _ _ _ _ _ _).2.2.1
    · rfl
    · exact (createStage_fields _ _ _ _ _ _ _ _).2.2.2.1
    · rfl
    · simp only []
      rw [List.map_append, map_update_fresh db.requests _ _ hfresh]
      congr 1
      simp only [List.map_cons, List.map_nil, if_true]
    · rfl
    · rfl

/-- C5 counterexample: the rider already holds a request that is active in
the claim's sense (status MATCHED ≠ REJECTED, pickup unverified), yet
because its inbox row is REJECTED, create_supply_request succeeds and
leaves TWO such active requests for the rider — refuting both the
at-most-one invariant and "fails whenever an active request exists". -/
theorem claim_C5_counterexample :
    (c5Req ∈ c5Db.requests ∧ c5Req.rider_id = "rider1"
      ∧ c5Req.status ≠ SupplyRequestStatus.REJECTED
      ∧ c5Req.pickup_verified_at = none)
    ∧ (create_supply_request gZero c5Db "rider1" "store:PUNE:WAKAD" none none
        none none (some "op1") 5).2 ≠ Except.error errActiveRequestExists
    ∧ ((create_supply_request gZero c5Db "rider1" "store:PUNE:WAKAD" none none
        none none (some "op1") 5).1.requests.length = 2
    ∧ ∀ r ∈ (create_supply_request gZero c5Db "rider1" "store:PUNE:WAKAD" none
        none none none (some "op1") 5).1.requests,
        r.rider_id = "rider1" ∧ r.status ≠ SupplyRequestStatus.REJECTED
          ∧ r.pickup_verified_at = none) := by
  refine ⟨⟨by decide, by decide, by decide, by decide⟩, by decide, by decide, by decide⟩

/-- Witness for the amended C5 claim: with the inbox row still NEW the
request is code-active and creation conflicts. -/
theorem claim_C5_witness :
    ((∀ r ∈ c5WitnessDb.requests, r.id ≠ "request-" ++ toString c5WitnessDb.gen)
      ∧ (∃ r ∈ c5WitnessDb.requests, r.rider_id = "rider1"
          ∧ codeActiveRequest c5WitnessDb r = true))
    ∧ create_supply_request gZero c5WitnessDb "rider1" "store:PUNE:WAKAD" none
        none none none (some "op1") 5
      = (c5WitnessDb, Except.error errActiveRequestExists) := by
  refine ⟨⟨by decide, ⟨c5Req, by decide, by decide, by decide⟩⟩, ?_⟩
  exact (claim_C5_create_request_gate gZero c5WitnessDb "rider1" "store:PUNE:WAKAD"
    none none none none (some "op1") 5 (by decide)).1
    ⟨c5Req, by decide, by decide, by decide⟩
/-! ## Claim C8: the lane anchor of store:PUNE:WAKAD -/

set_option maxRecDepth 200000 in
lemma sui_wakad_r_nat :
    parseHex ((bytesHex (sha256bytes (strBytes "store:PUNE:WAKAD:r"))).data.take 8) % 10000000
      = 1051761 := by
  decide

set_option maxRecDepth 200000 in
lemma sui_wakad_a_nat :
    parseHex ((bytesHex (sha256bytes (strBytes "store:PUNE:WAKAD:a"))).data.take 8) % 10000000
      = 5287627 := by
  decide

lemma sui_wakad_r_val :
    stable_unit_interval "store:PUNE:WAKAD:r" = (1051761 : ℚ) / 10000000 := by
  show ((parseHex ((bytesHex (sha256bytes (strBytes "store:PUNE:WAKAD:r"))).data.take 8)
      % 10000000 : ℕ) : ℚ) / 10000000 = _
  rw [sui_wakad_r_nat]
  norm_num

lemma sui_wakad_a_val :
    stable_unit_interval "store:PUNE:WAKAD:a" = (5287627 : ℚ) / 10000000 := by
  show ((parseHex ((bytesHex (sha256bytes (strBytes "store:PUNE:WAKAD:a"))).data.take 8)
      % 10000000 : ℕ) : ℚ) / 10000000 = _
  rw [sui_wakad_a_nat]
  norm_num

lemma string_append_r : ("store:PUNE:WAKAD" ++ ":r" : String) = "store:PUNE:WAKAD:r" := rfl

lemma string_append_a : ("store:PUNE:WAKAD" ++ ":a" : String) = "store:PUNE:WAKAD:a" := rfl

/-- Evaluation of the lane anchor of store:PUNE:WAKAD with no rider
coordinates: the Pune centroid plus the hash-derived offset, with the two
unit-interval hash values evaluated to their concrete rationals. -/
lemma anchor_wakad :
    lane_anchorR "store:PUNE:WAKAD" none none
      = (18.5204 + (17362327 / 10000000 : ℝ)
            * Real.cos (2 * Real.pi * (5287627 / 10000000)) / 111,
         73.8567 + (17362327 / 10000000 : ℝ)
            * Real.sin (2 * Real.pi * (5287627 / 10000000))
            / (111 * max 0.2 (Real.cos (radiansR 18.5204))),
         "store:stable_offset") := by
  have h1 : lane_anchorR "store:PUNE:WAKAD" none none
      = (((18.5204 : ℚ) : ℝ)
            + (1 + 7 * ((stable_unit_interval ("store:PUNE:WAKAD" ++ ":r") : ℚ) : ℝ))
            * Real.cos (2 * Real.pi
                * ((stable_unit_interval ("store:PUNE:WAKAD" ++ ":a") : ℚ) : ℝ)) / 111,
         ((73.8567 : ℚ) : ℝ)
            + (1 + 7 * ((stable_unit_interval ("store:PUNE:WAKAD" ++ ":r") : ℚ) : ℝ))
            * Real.sin (2 * Real.pi
                * ((stable_unit_interval ("store:PUNE:WAKAD" ++ ":a") : ℚ) : ℝ))
            / (111 * max 0.2 (Real.cos (radiansR ((18.5204 : ℚ) : ℝ)))),
         "store:stable_offset") := rfl
  rw [h1, string_append_r, string_append_a, sui_wakad_r_val, sui_wakad_a_val]
  norm_num

/-- Distance scaling of the haversine arctangent form: whenever the
haversine intermediate value lies in [1.7e-8, 4e-8], the resulting great
circle distance lies in [1, 8] km. -/
lemma atan2_dist_bounds (A : ℝ) (h1 : 17 / 1000000000 ≤ A) (h2 : A ≤ 4 / 100000000) :
    1 ≤ 6371 * (2 * atan2R (Real.sqrt A) (Real.sqrt (1 - A)))
      ∧ 6371 * (2 * atan2R (Real.sqrt A) (Real.sqrt (1 - A))) ≤ 8 := by
  have hA0 : 0 < A := by nlinarith
  have hA1 : A < 1 := by nlinarith
  have hden : 0 < Real.sqrt (1 - A) := Real.sqrt_pos.mpr (by linarith)
  have hb : atan2R (Real.sqrt A) (Real.sqrt (1 - A))
      = Real.arctan (Real.sqrt A / Real.sqrt (1 - A)) := by
    unfold atan2R
    rw [if_pos hden]
  have hsqA_l : (13 / 100000 : ℝ) ≤ Real.sqrt A := by
    rw [Real.le_sqrt (by norm_num) hA0.le]
    nlinarith
  have hsqA_u : Real.sqrt A ≤ 2 / 10000 := by
    rw [Real.sqrt_le_left (by norm_num)]
    nlinarith
  have hsq1_l : (999 / 1000 : ℝ) ≤ Real.sqrt (1 - A) := by
    rw [Real.le_sqrt (by norm_num) (by linarith)]
    nlinarith
  have hsq1_u : Real.sqrt (1 - A) ≤ 1 := by
    rw [Real.sqrt_le_left (by norm_num)]
    nlinarith
  have ht_l : (13 / 100000 : ℝ) ≤ Real.sqrt A / Real.sqrt (1 - A) := by
    rw [le_div_iff₀ hden]
    nlinarith
  have ht_u : Real.sqrt A / Real.sqrt (1 - A) ≤ 2003 / 10000000 := by
    rw [div_le_iff₀ hden]
    nlinarith
  set t := Real.sqrt A / Real.sqrt (1 - A) with ht
  have ht0 : (0 : ℝ) < t := by nlinarith
  have h0 : (0 : ℝ) < Real.arctan t := by
    have h4 := Real.arctan_strictMono ht0
    rwa [Real.arctan_zero] at h4
  have harc_u : Real.arctan t ≤ t := by
    have h3 := Real.le_tan h0.le (Real.arctan_lt_pi_div_two t)
    rwa [Real.tan_arctan] at h3
  have harc_l : (12 / 100000 : ℝ) ≤ Real.arctan t := by
    have hs := Real.sin_lt h0
    rw [Real.sin_arctan] at hs
    have hsq : Real.sqrt (1 + t ^ 2) ≤ 1001 / 1000 := by
      rw [Real.sqrt_le_left (by norm_num)]
      nlinarith
    have hsp : 0 < Real.sqrt (1 + t ^ 2) := Real.sqrt_pos.mpr (by positivity)
    have h5 : (12 / 100000 : ℝ) ≤ t / Real.sqrt (1 + t ^ 2) := by
      rw [le_div_iff₀ hsp]
      nlinarith
    linarith
  rw [hb]
  constructor
  · nlinarith
  · nlinarith

set_option maxHeartbeats 2000000 in
/-- The offset point of the store:PUNE:WAKAD lane anchor lies between 1 and
8 km haversine distance from the Pune centroid. -/
lemma wakad_dist_bounds :
    1 ≤ haversineR 18.5204 73.8567
          (18.5204 + (17362327 / 10000000 : ℝ)
            * Real.cos (2 * Real.pi * (5287627 / 10000000)) / 111)
          (73.8567 + (17362327 / 10000000 : ℝ)
            * Real.sin (2 * Real.pi * (5287627 / 10000000))
            / (111 * max 0.2 (Real.cos (radiansR 18.5204))))
      ∧ haversineR 18.5204 73.8567
          (18.5204 + (17362327 / 10000000 : ℝ)
            * Real.cos (2 * Real.pi * (5287627 / 10000000)) / 111)
          (73.8567 + (17362327 / 10000000 : ℝ)
            * Real.sin (2 * Real.pi * (5287627 / 10000000))
            / (111 * max 0.2 (Real.cos (radiansR 18.5204)))) ≤ 8 := by
  have hp1 : (3.141592 : ℝ) < Real.pi := Real.pi_gt_d6
  have hp2 : Real.pi < 3.141593 := Real.pi_lt_d6
  set d : ℝ := Real.pi * (575254 / 10000000) with hd
  have hd1 : (0.180721 : ℝ) ≤ d := by rw [hd]; nlinarith only [hp1, hp2]
  have hd2 : d ≤ 0.180722 := by rw [hd]; nlinarith only [hp1, hp2]
  have hang_c : Real.cos (2 * Real.pi * (5287627 / 10000000 : ℝ)) = -Real.cos d := by
    have e : 2 * Real.pi * (5287627 / 10000000 : ℝ) = d + Real.pi := by rw [hd]; ring
    rw [e, Real.cos_add_pi]
  have hang_s : Real.sin (2 * Real.pi * (5287627 / 10000000 : ℝ)) = -Real.sin d := by
    have e : 2 * Real.pi * (5287627 / 10000000 : ℝ) = d + Real.pi := by rw [hd]; ring
    rw [e, Real.sin_add_pi]
  have hd0 : (0 : ℝ) ≤ d := by linarith only [hd1]
  have habs : |d| ≤ 1 := by rw [abs_of_nonneg hd0]; linarith only [hd2]
  have hcb := Real.cos_bound habs
  have hsb := Real.sin_bound habs
  rw [abs_of_nonneg hd0, abs_le] at hcb hsb
  have hdsq : d ^ 2 ≤ (0.180722 : ℝ) ^ 2 := by nlinarith only [hd2, hd0]
  have hdsq2 : (0.180721 : ℝ) ^ 2 ≤ d ^ 2 := by nlinarith only [hd1, hd0]
  have hdcube : d ^ 3 ≤ (0.180722 : ℝ) ^ 3 := by
    nlinarith only [hdsq, hd2, hd0, sq_nonneg d]
  have hdquad : d ^ 4 ≤ (0.180722 : ℝ) ^ 4 := by nlinarith only [hdsq, sq_nonneg d]
  have hcosd_l : (0.983 : ℝ) ≤ Real.cos d := by nlinarith only [hcb.1, hdsq, hdquad]
  have hcosd_u : Real.cos d ≤ 0.984 := by nlinarith only [hcb.2, hdsq2, hdquad]
  have hsind_l : (0.17 : ℝ) ≤ Real.sin d := by
    nlinarith only [hsb.1, hdcube, hdquad, hd1]
  have hsind_u : Real.sin d ≤ 0.19 := by
    nlinarith only [hsb.2, hd2, hdquad, hd0, sq_nonneg d]
  have hrL : radiansR (18.5204 : ℝ) = 18.5204 * Real.pi / 180 := rfl
  set y : ℝ := 18.5204 * Real.pi / 180 with hy
  have hy1 : (0.3232 : ℝ) ≤ y := by rw [hy]; nlinarith only [hp1, hp2]
  have hy2 : y ≤ 0.3233 := by rw [hy]; nlinarith only [hp1, hp2]
  have hy0 : (0 : ℝ) ≤ y := by linarith only [hy1]
  have hyabs : |y| ≤ 1 := by rw [abs_of_nonneg hy0]; linarith only [hy2]
  have hycb := Real.cos_bound hyabs
  rw [abs_of_nonneg hy0, abs_le] at hycb
  have hysq : y ^ 2 ≤ (0.3233 : ℝ) ^ 2 := by nlinarith only [hy2, hy0]
  have hyquad : y ^ 4 ≤ (0.3233 : ℝ) ^ 4 := by nlinarith only [hysq, sq_nonneg y]
  have hcosL_l : (0.94 : ℝ) ≤ Real.cos y := by nlinarith only [hycb.1, hysq, hyquad]
  have hcosL_u : Real.cos y ≤ 1 := Real.cos_le_one y
  set M : ℝ := max (0.2 : ℝ) (Real.cos (radiansR 18.5204)) with hM
  have hM_l : (0.94 : ℝ) ≤ M := by
    rw [hM, hrL]
    exact le_trans hcosL_l (le_max_right _ _)
  have hM0 : (0 : ℝ) < M := lt_of_lt_of_le (by norm_num) hM_l
  set r : ℝ := (17362327 / 10000000 : ℝ) with hr
  rw [hang_c, hang_s]
  set m1 : ℝ := r * Real.cos d / 111 with hm1
  set m2 : ℝ := r * Real.sin d / (111 * M) with hm2
  have e1 : (18.5204 : ℝ) + r * -Real.cos d / 111 = 18.5204 - m1 := by rw [hm1]; ring
  have e2 : (73.8567 : ℝ) + r * -Real.sin d / (111 * M) = 73.8567 - m2 := by
    rw [hm2]; ring
  rw [e1, e2]
  have hm1_l : (0.0153 : ℝ) ≤ m1 := by
    rw [hm1, hr]; nlinarith only [hcosd_l, hcosd_u]
  have hm1_u : m1 ≤ 0.0154 := by
    rw [hm1, hr]; nlinarith only [hcosd_u, hcosd_l]
  have hm2_l : (0 : ℝ) < m2 := by
    rw [hm2]
    apply div_pos
    · rw [hr]; nlinarith only [hsind_l]
    · nlinarith only [hM_l]
  have hm2_u : m2 ≤ 0.0032 := by
    rw [hm2, div_le_iff₀ (by nlinarith only [hM_l] : (0 : ℝ) < 111 * M), hr]
    nlinarith only [hsind_u, hM_l, hsind_l]
  have hhav : ∀ la lo : ℝ, haversineR 18.5204 73.8567 la lo
      = 6371 * (2 * atan2R
          (Real.sqrt (Real.sin (radiansR (la - 18.5204) / 2) ^ 2
            + Real.cos (radiansR 18.5204) * Real.cos (radiansR la)
              * Real.sin (radiansR (lo - 73.8567) / 2) ^ 2))
          (Real.sqrt (1 - (Real.sin (radiansR (la - 18.5204) / 2) ^ 2
            + Real.cos (radiansR 18.5204) * Real.cos (radiansR la)
              * Real.sin (radiansR (lo - 73.8567) / 2) ^ 2)))) := fun la lo => rfl
  rw [hhav]
  set x1 : ℝ := m1 * Real.pi / 360 with hx1
  set x2 : ℝ := m2 * Real.pi / 360 with hx2
  have ex1 : radiansR ((18.5204 : ℝ) - m1 - 18.5204) / 2 = -x1 := by
    show ((18.5204 : ℝ) - m1 - 18.5204) * Real.pi / 180 / 2 = -x1
    rw [hx1]; ring
  have ex2 : radiansR ((73.8567 : ℝ) - m2 - 73.8567) / 2 = -x2 := by
    show ((73.8567 : ℝ) - m2 - 73.8567) * Real.pi / 180 / 2 = -x2
    rw [hx2]; ring
  rw [ex1, ex2, Real.sin_neg, Real.sin_neg, neg_sq, neg_sq]
  have hx1_l : (1335 / 10000000 : ℝ) ≤ x1 := by
    rw [hx1]; nlinarith only [hm1_l, hm1_u, hp1, hp2]
  have hx1_u : x1 ≤ 1344 / 10000000 := by
    rw [hx1]; nlinarith only [hm1_u, hm1_l, hp1, hp2]
  have hx2_l : (0 : ℝ) < x2 := by
    rw [hx2]
    exact div_pos (mul_pos hm2_l Real.pi_pos) (by norm_num)
  have hx2_u : x2 ≤ 28 / 1000000 := by
    rw [hx2]; nlinarith only [hm2_u, hm2_l, hp1, hp2]
  have hx1_0 : (0 : ℝ) < x1 := lt_of_lt_of_le (by norm_num) hx1_l
  have hx1abs : |x1| ≤ 1 := by rw [abs_of_nonneg hx1_0.le]; linarith only [hx1_u]
  have hx1sb := Real.sin_bound hx1abs
  rw [abs_of_nonneg hx1_0.le, abs_le] at hx1sb
  have hx1sq : x1 ^ 2 ≤ (1344 / 10000000 : ℝ) ^ 2 := by
    nlinarith only [hx1_u, hx1_0.le]
  have hx1cube : x1 ^ 3 ≤ (1344 / 10000000 : ℝ) ^ 3 := by
    nlinarith only [hx1sq, hx1_u, hx1_0.le, sq_nonneg x1]
  have hx1quad : x1 ^ 4 ≤ (1344 / 10000000 : ℝ) ^ 4 := by
    nlinarith only [hx1sq, sq_nonneg x1]
  have hsx1_l : (1334 / 10000000 : ℝ) ≤ Real.sin x1 := by
    nlinarith only [hx1sb.1, hx1_l, hx1cube, hx1quad]
  have hsx1_u : Real.sin x1 ≤ 1344 / 10000000 :=
    le_trans (le_of_lt (Real.sin_lt hx1_0)) hx1_u
  have hsx1_0 : (0 : ℝ) ≤ Real.sin x1 := by linarith only [hsx1_l]
  have hsx2_u : Real.sin x2 ≤ 28 / 1000000 :=
    le_trans (le_of_lt (Real.sin_lt hx2_l)) hx2_u
  have hsx2_0 : (0 : ℝ) ≤ Real.sin x2 :=
    Real.sin_nonneg_of_nonneg_of_le_pi hx2_l.le (by linarith only [hp1, hx2_u])
  have hc1_0 : (0 : ℝ) ≤ Real.cos (radiansR 18.5204) := by
    rw [hrL]
    exact Real.cos_nonneg_of_mem_Icc
      (Set.mem_Icc.mpr ⟨by linarith only [hp1, hy1], by linarith only [hp1, hy2]⟩)
  have hc1_u : Real.cos (radiansR 18.5204) ≤ 1 := Real.cos_le_one _
  have hz : radiansR ((18.5204 : ℝ) - m1) = (18.5204 - m1) * Real.pi / 180 := rfl
  have hz1 : (0 : ℝ) ≤ (18.5204 - m1) * Real.pi / 180 := by
    nlinarith only [hm1_u, hp1]
  have hz2 : (18.5204 - m1) * Real.pi / 180 ≤ Real.pi / 2 := by
    nlinarith only [hm1_l, hm1_u, hp1]
  have hc2_0 : (0 : ℝ) ≤ Real.cos (radiansR ((18.5204 : ℝ) - m1)) := by
    rw [hz]
    exact Real.cos_nonneg_of_mem_Icc
      (Set.mem_Icc.mpr ⟨by linarith only [hz1, hp1], hz2⟩)
  have hc2_u : Real.cos (radiansR ((18.5204 : ℝ) - m1)) ≤ 1 := Real.cos_le_one _
  have hterm2_0 : (0 : ℝ) ≤ Real.cos (radiansR 18.5204)
      * Real.cos (radiansR ((18.5204 : ℝ) - m1)) * Real.sin x2 ^ 2 :=
    mul_nonneg (mul_nonneg hc1_0 hc2_0) (sq_nonneg _)
  have hterm2_u : Real.cos (radiansR 18.5204)
      * Real.cos (radiansR ((18.5204 : ℝ) - m1)) * Real.sin x2 ^ 2
        ≤ (28 / 1000000 : ℝ) ^ 2 := by
    have hs2 : Real.sin x2 ^ 2 ≤ (28 / 1000000 : ℝ) ^ 2 := by
      nlinarith only [hsx2_u, hsx2_0]
    have hcc : Real.cos (radiansR 18.5204)
        * Real.cos (radiansR ((18.5204 : ℝ) - m1)) ≤ 1 := by
      nlinarith only [hc1_0, hc1_u, hc2_0, hc2_u]
    have hcc0 : (0 : ℝ) ≤ Real.cos (radiansR 18.5204)
        * Real.cos (radiansR ((18.5204 : ℝ) - m1)) := mul_nonneg hc1_0 hc2_0
    nlinarith only [hs2, hcc, hcc0, sq_nonneg (Real.sin x2)]
  have hA_l : (17 / 1000000000 : ℝ) ≤ Real.sin x1 ^ 2
      + Real.cos (radiansR 18.5204) * Real.cos (radiansR ((18.5204 : ℝ) - m1))
        * Real.sin x2 ^ 2 := by
    nlinarith only [hsx1_l, hterm2_0, hsx1_0]
  have hA_u : Real.sin x1 ^ 2
      + Real.cos (radiansR 18.5204) * Real.cos (radiansR ((18.5204 : ℝ) - m1))
        * Real.sin x2 ^ 2 ≤ 4 / 100000000 := by
    nlinarith only [hsx1_u, hsx1_0, hterm2_u]
  exact atan2_dist_bounds _ hA_l hA_u

/-- Claim C8: the lane anchor resolver applied to lane id store:PUNE:WAKAD with
no requester coordinates returns the same (lat, lon) pair on every call (in the
embedding it is a pure function of the lane id, so two evaluations are equal),
and the returned point lies within [1, 8] km haversine distance of the Pune
centroid (18.5204, 73.8567). -/
theorem claim_C8_lane_anchor_deterministic_and_near_pune :
    (lane_anchorR "store:PUNE:WAKAD" none none
        = lane_anchorR "store:PUNE:WAKAD" none none)
      ∧ 1 ≤ haversineR 18.5204 73.8567
            (lane_anchorR "store:PUNE:WAKAD" none none).1
            (lane_anchorR "store:PUNE:WAKAD" none none).2.1
      ∧ haversineR 18.5204 73.8567
            (lane_anchorR "store:PUNE:WAKAD" none none).1
            (lane_anchorR "store:PUNE:WAKAD" none none).2.1 ≤ 8 := by
  refine ⟨rfl, ?_, ?_⟩
  · rw [anchor_wakad]
    exact wakad_dist_bounds.1
  · rw [anchor_wakad]
    exact wakad_dist_bounds.2
